import Mathlib

/-!
Shallow embedding of `njord.py`, a sitemap-driven link/anchor integrity
checker.

Modelling conventions:
* Python strings are Lean `String` / `List Char`.
* The regular expressions of the source contain, apart from literal text,
  only the metacharacters `.` (any character), a trailing `?` after a
  literal character or after `/`, `$`, the classes `[^"]`, `[^"#]`, `[^>]`,
  `(.*?)`, `(.*)`, `\b`, and the alternation `(?:name|id)`.  Each pattern
  is embedded as an explicit scanner with the same leftmost / lazy
  semantics; the embedding of each scanner notes the source line of the
  pattern it implements.  Interpolated fragments (f-string patterns such as
  `rf'\b(?:name|id)="{linkAnchor}"'`) are treated as literal text, i.e. the
  embedding assumes anchors, the domain and the folder contain no further
  regex metacharacters.
* Network and browser calls are oracles collected in `Env`
  (`none` = the call raised).  Python exceptions are `Except`; uncaught
  exceptions reach the top-level handler of njord.py:676, so run functions
  return `Except (PyErr × State) State`, the error carrying the global
  state at the moment the exception escaped.
* Fields marked "ghost instrumentation" record oracle calls or
  per-link decisions for the statements of the theorems; they are never
  read by the control flow.
-/

namespace Njord

/-- Python exception, carried as a description string. -/
abbrev PyErr := String

/-- Word characters, for the regex word boundary `\b`. -/
def isWordChar (c : Char) : Bool := c.isAlphanum || c = '_'

/-- Python `str.startswith` / `re.match` of a literal prefix, computed on
the character list (structurally recursive, hence kernel-reducible, unlike
the byte-position-based `String.startsWith`). -/
def pyStartsWith (s pre : String) : Bool := pre.toList.isPrefixOf s.toList

/-- Python `str.endswith`, computed on the character list. -/
def pyEndsWith (s suf : String) : Bool := suf.toList.isSuffixOf s.toList

/-- `re.match(pat, s)` for the plain patterns of njord.py whose only
metacharacter is `.` (matches any single character): true iff the pattern
matches a prefix of `s`. -/
def matchPrefixPattern : List Char → List Char → Bool
  | [], _ => true
  | _ :: _, [] => false
  | p :: ps, c :: cs => (p = '.' || p = c) && matchPrefixPattern ps cs

/-- `re.search(pat, s)` for the same pattern class: the pattern matches at
some position of `s`. -/
def containsPattern (pat : List Char) : List Char → Bool
  | [] => matchPrefixPattern pat []
  | c :: cs => matchPrefixPattern pat (c :: cs) || containsPattern pat cs

/-- `re.match("../", s)` (njord.py:395,434): the pattern is two wildcards
followed by a literal `/`, so it matches any string whose third character
is `/`. -/
def thirdCharSlash : List Char → Bool
  | _ :: _ :: '/' :: _ => true
  | _ => false

/-- `if not URL.endswith('/'): URL = URL + '/'` (njord.py:396-397,435-436). -/
def ensureSlash (u : String) : String := if pyEndsWith u "/" then u else u ++ "/"

/-- One trailing `/` removed, if present (specification-side helper used to
characterise `searchBaseSlashHash`). -/
def stripOneTrailingSlash (cs : List Char) : List Char :=
  if cs.getLast? = some '/' then cs.dropLast else cs

/-- `re.search(r'(.*?)/?#', link).group(1)` (njord.py:496): leftmost-shortest
match.  `.` does not cross a newline, so the accumulator restarts after a
`'\n'`.  The result is the text before the first `'#'` with at most one
trailing `'/'` removed; `none` when the link contains no `'#'` (in Python
`.group(1)` then raises AttributeError). -/
def searchBaseSlashHash : List Char → List Char → Option (List Char)
  | _, [] => none
  | acc, c :: rest =>
    if c = '#' then some acc.reverse
    else if c = '/' ∧ rest.head? = some '#' then some acc.reverse
    else if c = '\n' then searchBaseSlashHash [] rest
    else searchBaseSlashHash (c :: acc) rest

/-- `re.search(r'#(.*)', link).group(1)` (njord.py:497,545): everything after
the first `'#'`, stopping at a newline (`.` does not match `'\n'`). -/
def afterFirstHash (link : String) : String :=
  String.mk (((link.toList.dropWhile (fun c => c ≠ '#')).drop 1).takeWhile (fun c => c ≠ '\n'))

/-- Text up to the first `'"'` together with the remainder after that quote.
This is the lazy capture of the classes `[^"]`/`[^"#]` followed by the
closing `'"'` of the href patterns (the class tests on the captured text are
applied by the callers).  The remainder carries its length bound so the
scanners below can recurse on it. -/
def takeUntilQuote : (cs : List Char) → Option (List Char × { r : List Char // r.length < cs.length })
  | [] => none
  | c :: cs =>
    if c = '"' then some ([], ⟨cs, by simp only [List.length_cons]; omega⟩)
    else
      match takeUntilQuote cs with
      | some (v, ⟨r, h⟩) => some (c :: v, ⟨r, by simp only [List.length_cons]; omega⟩)
      | none => none

/-- Like `takeUntilQuote`, but the capture is `(.*?)` without DOTALL, which
cannot cross a newline: a `'\n'` before the closing quote makes the
candidate fail. -/
def takeUntilQuoteNoNL : (cs : List Char) → Option (List Char × { r : List Char // r.length < cs.length })
  | [] => none
  | c :: cs =>
    if c = '"' then some ([], ⟨cs, by simp only [List.length_cons]; omega⟩)
    else if c = '\n' then none
    else
      match takeUntilQuoteNoNL cs with
      | some (v, ⟨r, h⟩) => some (c :: v, ⟨r, by simp only [List.length_cons]; omega⟩)
      | none => none

/-- `re.findall(rf'href="([^"]*?#[^\"]+?)"', document)` (njord.py:387).
A capture is the text between `href="` and the next `'"'`; the lazy classes
make the candidate succeed exactly when that text contains a `'#'` before
its last character.  On success scanning resumes after the closing quote
(findall matches are non-overlapping); on failure at the next position. -/
def findHrefAnchorsGo : Nat → List Char → List String
  | 0, _ => []
  | _, [] => []
  | fuel + 1, c :: rest =>
    if ("href=\"".toList).isPrefixOf (c :: rest) then
      match takeUntilQuote ((c :: rest).drop 6) with
      | some (v, ⟨r, _⟩) =>
        if (v.dropLast).contains '#' then String.mk v :: findHrefAnchorsGo fuel r
        else findHrefAnchorsGo fuel rest
      | none => findHrefAnchorsGo fuel rest
    else findHrefAnchorsGo fuel rest

/-- Entry point: the fuel is the input length.  Every recursive call
strictly shrinks the scanned list (the `takeUntilQuote` remainder carries
that bound), so this fuel is never exhausted before the list is, and the
device only serves to make the recursion structural. -/
def findHrefAnchors (cs : List Char) : List String := findHrefAnchorsGo cs.length cs

/-- The `[^>]*?href="([^"#]+?)"` tail of the normal-link pattern
(njord.py:390): starting inside an `<a ` tag, lazily skip non-`'>'`
characters to the next `href="`, capture up to the following `'"'`; the
candidate succeeds when the capture is non-empty and `'#'`-free, otherwise
the engine backtracks to the next `href="` occurrence (still without
crossing `'>'`). -/
def searchHrefCandidate : (cs : List Char) → Option (List Char × { r : List Char // r.length < cs.length })
  | [] => none
  | c :: rest =>
    if c = '>' then none
    else if ("href=\"".toList).isPrefixOf (c :: rest) then
      match takeUntilQuote ((c :: rest).drop 6) with
      | some (v, ⟨r, h⟩) =>
        if v ≠ [] ∧ ¬ v.contains '#' then
          some (v, ⟨r, by
            have hd : ((c :: rest).drop 6).length ≤ rest.length := by
              simp only [List.length_drop, List.length_cons]; omega
            simp only [List.length_cons]; omega⟩)
        else
          match searchHrefCandidate rest with
          | some (v', ⟨r', h'⟩) => some (v', ⟨r', by simp only [List.length_cons]; omega⟩)
          | none => none
      | none =>
        match searchHrefCandidate rest with
        | some (v', ⟨r', h'⟩) => some (v', ⟨r', by simp only [List.length_cons]; omega⟩)
        | none => none
    else
      match searchHrefCandidate rest with
      | some (v', ⟨r', h'⟩) => some (v', ⟨r', by simp only [List.length_cons]; omega⟩)
      | none => none

/-- `re.findall(rf'<a [^>]*?href="([^"#]+?)"', document)` (njord.py:390). -/
def findNormalHrefsGo : Nat → List Char → List String
  | 0, _ => []
  | _, [] => []
  | fuel + 1, c :: rest =>
    if ("<a ".toList).isPrefixOf (c :: rest) then
      match searchHrefCandidate ((c :: rest).drop 3) with
      | some (v, ⟨r, _⟩) => String.mk v :: findNormalHrefsGo fuel r
      | none => findNormalHrefsGo fuel rest
    else findNormalHrefsGo fuel rest

/-- Entry point; the fuel argument is as in `findHrefAnchors`. -/
def findNormalHrefs (cs : List Char) : List String := findNormalHrefsGo cs.length cs

/-- `re.findall(rf'\b(?:name|id)="(.*?)"', document)` (njord.py:445):
occurrences of `name="` or `id="` preceded by a word boundary, capturing
lazily up to the next quote (the capture cannot cross a newline).  `prev`
is the character before the current position (`none` at the start of the
document). -/
def findNameIdsGo : Nat → Option Char → List Char → List String
  | 0, _, _ => []
  | _, _, [] => []
  | fuel + 1, prev, c :: rest =>
    let boundaryOK := match prev with | none => true | some p => ! isWordChar p
    if boundaryOK && ("name=\"".toList).isPrefixOf (c :: rest) then
      match takeUntilQuoteNoNL ((c :: rest).drop 6) with
      | some (v, ⟨r, _⟩) => String.mk v :: findNameIdsGo fuel (some '"') r
      | none => findNameIdsGo fuel (some c) rest
    else if boundaryOK && ("id=\"".toList).isPrefixOf (c :: rest) then
      match takeUntilQuoteNoNL ((c :: rest).drop 4) with
      | some (v, ⟨r, _⟩) => String.mk v :: findNameIdsGo fuel (some '"') r
      | none => findNameIdsGo fuel (some c) rest
    else findNameIdsGo fuel (some c) rest

/-- Entry point; the fuel argument is as in `findHrefAnchors`. -/
def findNameIds (prev : Option Char) (cs : List Char) : List String :=
  findNameIdsGo cs.length prev cs

/-- Drop everything up to and including the first occurrence of `tok`;
`none` if `tok` does not occur. -/
def dropThroughToken (tok : List Char) : List Char → Option (List Char)
  | [] => none
  | c :: cs =>
    if tok.isPrefixOf (c :: cs) then some ((c :: cs).drop tok.length)
    else dropThroughToken tok cs

/-- The text before the first occurrence of `tok`, with the remainder after
the token; `none` if `tok` does not occur. -/
def takeUntilToken (tok : List Char) : List Char → Option (List Char × List Char)
  | [] => none
  | c :: cs =>
    if tok.isPrefixOf (c :: cs) then some ([], (c :: cs).drop tok.length)
    else (takeUntilToken tok cs).map (fun p => (c :: p.1, p.2))

/-- `re.search(rf'<title.*?>(.*?)</title>', document, re.DOTALL).group(1)`
(njord.py:380): after the first `<title`, skip (lazily, across newlines) to
the first `'>'`, and capture up to the first following `</title>`.  `none`
when there is no match (Python then raises AttributeError on `.group`). -/
def searchTitle (doc : List Char) : Option String :=
  (dropThroughToken ("<title".toList) doc).bind fun r1 =>
  (takeUntilToken ['>'] r1).bind fun p1 =>
  (takeUntilToken ("</title>".toList) p1.2).map fun p2 => String.mk p2.1

/-- `re.search(rf'\b(?:name|id)="{anchor}"', src)` (njord.py:525,549) as a
Bool: the token `name="anchor"` or `id="anchor"` occurs at a position
preceded by a non-word character (or the start).  The anchor is interpolated
literally. -/
def searchWordBoundaryToken (tok : List Char) : Option Char → List Char → Bool
  | _, [] => false
  | prev, c :: cs =>
    let boundaryOK := match prev with | none => true | some p => ! isWordChar p
    (boundaryOK && tok.isPrefixOf (c :: cs)) || searchWordBoundaryToken tok (some c) cs

/-- Anchor present in a fetched page, checked directly on the markup. -/
def hasNameOrId (anchor : String) (src : String) : Bool :=
  searchWordBoundaryToken (("name=\"" ++ anchor ++ "\"").toList) none src.toList
  || searchWordBoundaryToken (("id=\"" ++ anchor ++ "\"").toList) none src.toList

/-- The `../`-rewriting loop over the normal links (njord.py:393-399): a
link whose third character is `/` (see `thirdCharSlash`) is rewritten to
`URL + '../' + rest`, first appending `/` to `URL` if needed — and that
mutation of the loop variable `URL` persists for later links and for the
subsequent dictionary assignments.  Returns the final `URL` and the
rewritten list. -/
def rewriteNormalLinks (URL : String) : List String → String × List String
  | [] => (URL, [])
  | l :: ls =>
    if thirdCharSlash l.toList then
      let u := ensureSlash URL
      let l' := u ++ "../" ++ String.mk (l.toList.drop 3)
      let (u', ls') := rewriteNormalLinks u ls
      (u', l' :: ls')
    else
      let (u', ls') := rewriteNormalLinks URL ls
      (u', l :: ls')

/-- The anchor-link denylist (njord.py:414-421). -/
def anchorDenied (l : String) : Bool :=
  matchPrefixPattern ("https://app.diagrams.net".toList) l.toList
  || matchPrefixPattern ("https://app.getpostman.com/run-collection".toList) l.toList
  || matchPrefixPattern ("https://learning.postman.com/".toList) l.toList
  || matchPrefixPattern ("https://viewer.diagrams.net".toList) l.toList
  || containsPattern ("/misc/satisfaction-levels".toList) l.toList
  || decide (l.length > 2048)

/-- The anchor-link cleanup loop (njord.py:412-438): denylisted entries are
deleted; for the remaining ones, a link matching `re.match(domain, ...)` is
recorded in `wasAbsorel` (keyed by the current value of the loop variable
`URL`) and counted in `absorel`; then a leading `/` is replaced by
`domain + '/'`, and a `../`-style link is rewritten against `URL` exactly
as in `rewriteNormalLinks` (again mutating `URL`).  Returns the final
`URL`, the cleaned list, the `wasAbsorel` additions and the `absorel`
increment. -/
def cleanupAnchorLinks (domain : String) : String → List String → String × List String × List (String × String) × Nat
  | URL, [] => (URL, [], [], 0)
  | URL, a :: as =>
    if anchorDenied a then cleanupAnchorLinks domain URL as
    else
      let absoHit := matchPrefixPattern domain.toList a.toList
      let a1 := if pyStartsWith a "/" then domain ++ a else a
      let (u, a2) :=
        if thirdCharSlash a1.toList then
          let u := ensureSlash URL
          (u, u ++ "../" ++ String.mk (a1.toList.drop 3))
        else (URL, a1)
      let (u', rest, was, n) := cleanupAnchorLinks domain u as
      (u', a2 :: rest, (if absoHit then [(URL, a)] else []) ++ was, (if absoHit then 1 else 0) + n)

/-- Validator-side absolutisation of a normal link (njord.py:574-575):
`if re.match(r'^/', link): link = domain + link`. -/
def absolutizeNormal (domain l : String) : String :=
  if pyStartsWith l "/" then domain ++ l else l

/-- The normal-link denylist (njord.py:588-613).  The two `https?://`
patterns are expanded into their `http://` / `https://` alternatives;
`woff2?$` matches a `woff` or `woff2` suffix. -/
def normalLinkDenied (l : String) : Bool :=
  let cs := l.toList
  matchPrefixPattern ("http://docs.oasis-open.org/xliff/xliff-core".toList) cs
  || matchPrefixPattern ("https://azure.microsoft.com/en-us".toList) cs
  || matchPrefixPattern ("https://business.adobe.com/products/target".toList) cs
  || matchPrefixPattern ("https://csrc.nist.gov/Projects/key-management/key-management-guidelines".toList) cs
  || matchPrefixPattern ("https://github.com/Evolveum/docs/blob/".toList) cs
  || matchPrefixPattern ("https://graphiql-online.com/".toList) cs
  || matchPrefixPattern ("https://help.zapier.com/hc/en-us/articles".toList) cs
  || matchPrefixPattern ("https://player.vimeo.com/video/".toList) cs
  || matchPrefixPattern ("https://twitter.com".toList) cs
  || matchPrefixPattern ("https://www.cloudflare.com/learning".toList) cs
  || matchPrefixPattern ("https://www.dta.gov.au/".toList) cs
  || matchPrefixPattern ("https://www.mozilla.org/firefox".toList) cs
  || matchPrefixPattern ("https://www.vic.gov.au/".toList) cs
  || matchPrefixPattern ("mailto:".toList) cs
  || matchPrefixPattern ("http://127.0.0.1".toList) cs
  || matchPrefixPattern ("https://127.0.0.1".toList) cs
  || matchPrefixPattern ("http://fonts.cdnfonts.com/css".toList) cs
  || matchPrefixPattern ("https://fonts.cdnfonts.com/css".toList) cs
  || matchPrefixPattern ("http://localhost".toList) cs
  || matchPrefixPattern ("https://localhost".toList) cs
  || containsPattern ("%7B".toList) cs
  || containsPattern ("example.com".toList) cs
  || containsPattern ("example.org".toList) cs
  || containsPattern ("file-name".toList) cs
  || containsPattern ("file_name".toList) cs
  || containsPattern ("filename".toList) cs
  || pyEndsWith l "woff" || pyEndsWith l "woff2"

/-- An HTTP status code as stored by njord.py: an integer, or the string
`"unknown"` when the request raised (njord.py:657). -/
inductive HttpCode where
  | num : Nat → HttpCode
  | unknown : HttpCode
deriving DecidableEq, Repr

/-- One line printed by `printNOK` (njord.py:135-239), by branch.  The
payloads are the strings interpolated into the printed text. -/
inductive OutEvent where
  /-- The per-page headline `"Issues in <title> (<pg>)"` (njord.py:155). -/
  | headline : String → String → OutEvent
  /-- `"Some intial generic error occurred"` (njord.py:157). -/
  | genericHeadline : OutEvent
  /-- type `'404'` (njord.py:160-163): never passed by any caller. -/
  | outsideAnchor404 : String → OutEvent
  /-- type `'sitemapNotFound'` (njord.py:166-169). -/
  | sitemapNotFound : String → OutEvent
  /-- type `'internalSitemap404'` (njord.py:172-175). -/
  | internalSitemap404 : String → OutEvent
  /-- type `'cantProcessPage'` (njord.py:178-181). -/
  | cantProcessPage : String → OutEvent
  /-- type `'noSitemapMatch'` (njord.py:184-187). -/
  | noSitemapMatch : OutEvent
  /-- type `'unreachable'` (njord.py:198-207): prints the global `link` and
  the redirect; never passed by any caller. -/
  | unreachableWarn : String → String → OutEvent
  /-- type `'cantGoOutside'` (njord.py:210-213). -/
  | cantGoOutside : String → OutEvent
  /-- type `'externalNOK'` (njord.py:216-219). -/
  | externalNOK : String → OutEvent
  /-- type `'normalLinkUnreachable'` (njord.py:222-225). -/
  | normalLinkUnreachable : String → HttpCode → OutEvent
  /-- type `'normalLinkUnresolved'` (njord.py:228-230). -/
  | normalLinkUnresolved : String → HttpCode → OutEvent
  /-- the final `else` branch `"Anchor NOK"` (njord.py:233-236), reached by
  type `None` and by any string matching no other branch (e.g. `">399"`). -/
  | anchorNOK : String → OutEvent
deriving DecidableEq, Repr

/-- The issue types suppressed by the quiet switch in the headline condition
(njord.py:146-150). -/
def warnQuietType (ty : Option String) : Bool :=
  ty = some "absorel" || ty = some "unreachable"
  || ty = some "cantGoOutside" || ty = some "externalNOK"

/-- The headline decision of `printNOK` (njord.py:141-157); see `printNOK`. -/
def printNOKHeadline (beQuiet indexNonempty : Bool) (pageTitle : Option String)
    (pg : String) (first : Bool) (ty : Option String) : Except PyErr (List OutEvent) :=
  if first && ! ((beQuiet && warnQuietType ty)
                 || ty = some "sitemapNotFound" || ty = some "absorel") then
    if indexNonempty then
      match pageTitle with
      | some t => Except.ok [OutEvent.headline t pg]
      | none => Except.error "NameError: name page is not defined"
    else Except.ok [OutEvent.genericHeadline]
  else Except.ok []

/-- The type-dispatch chain of `printNOK` (njord.py:160-236): the printed
line(s), the returned `first`, and the new `exitCode` (1 exactly in the
error branches, the incoming code otherwise). -/
def printNOKBranch (beQuiet : Bool) (glLink ln : String) (first : Bool) (ty : Option String)
    (redir : String) (errorCode : HttpCode) (exitCode : Nat) : List OutEvent × Bool × Nat :=
  if ty = some "404" then ([OutEvent.outsideAnchor404 ln], false, 1)
  else if ty = some "sitemapNotFound" then ([OutEvent.sitemapNotFound ln], false, 1)
  else if ty = some "internalSitemap404" then ([OutEvent.internalSitemap404 ln], false, 1)
  else if ty = some "cantProcessPage" then ([OutEvent.cantProcessPage ln], false, 1)
  else if ty = some "noSitemapMatch" then ([OutEvent.noSitemapMatch], false, 1)
  else if ty = some "absorel" then ([], first, exitCode)
  else if ty = some "unreachable" then
    if beQuiet = false then ([OutEvent.unreachableWarn glLink redir], false, exitCode)
    else ([], first, exitCode)
  else if ty = some "cantGoOutside" then
    if beQuiet = false then ([OutEvent.cantGoOutside ln], false, exitCode)
    else ([], first, exitCode)
  else if ty = some "externalNOK" then
    if beQuiet = false then ([OutEvent.externalNOK ln], false, exitCode)
    else ([], first, exitCode)
  else if ty = some "normalLinkUnreachable" then
    ([OutEvent.normalLinkUnreachable ln errorCode], false, 1)
  else if ty = some "normalLinkUnresolved" then
    -- njord.py:228-230: printed with NO beQuiet check, unlike the other
    -- warning branches.
    ([OutEvent.normalLinkUnresolved ln errorCode], false, exitCode)
  else ([OutEvent.anchorNOK ln], false, 1)

/-- `printNOK` (njord.py:135-239).

Besides its Python parameters `pg ln first type redir errorCode` it takes
the globals it reads: `beQuiet`; `indexNonempty` (truthiness of
`pagesLinksAndAnchors`); `pageTitle` = `pagesLinksAndAnchors[page]['title']`
for the global `page`, or `none` when that lookup raises (during the crawl
phase `page` is not yet defined, a NameError); `glLink` = the global `link`
(only printed by the `'unreachable'` branch); and the incoming `exitCode`.

The headline condition is Python's
`first == True and not (beQuiet == True and (type in warnset) or
type == 'sitemapNotFound' or type == 'absorel')`, where `and` binds
tighter than `or`.

Returns the printed events, the returned `first`, and the new `exitCode`
(set to 1 exactly in the error branches). -/
def printNOK (beQuiet : Bool) (indexNonempty : Bool) (pageTitle : Option String)
    (glLink : String) (pg ln : String) (first : Bool) (ty : Option String)
    (redir : String) (errorCode : HttpCode) (exitCode : Nat) :
    Except PyErr (List OutEvent × Bool × Nat) :=
  match printNOKHeadline beQuiet indexNonempty pageTitle pg first ty with
  | Except.error e => Except.error e
  | Except.ok hd =>
    let br := printNOKBranch beQuiet glLink ln first ty redir errorCode exitCode
    Except.ok (hd ++ br.1, br.2.1, br.2.2)

/-- The command-line configuration after the cleanup of njord.py:44-75. -/
structure Cfg where
  domain : String
  folder : String
  beQuiet : Bool
  noExternal : Bool

/-- `URLPath = domain + folder` (njord.py:75). -/
def Cfg.URLPath (c : Cfg) : String := c.domain ++ c.folder

/-- The external world: `browserFetch u` models `browser.get(u)` followed by
`browser.page_source`; `probe u` models `requests.get(u).url` (the
redirect-followed final URL, njord.py:510); `sessionGet u` models
`sessionForRequests.get(u, timeout=10).status_code` (njord.py:642).
`none` means the call raised. -/
structure Env where
  browserFetch : String → Option String
  probe : String → Option String
  sessionGet : String → Option Nat

/-- One value of the `pagesLinksAndAnchors` dictionary (njord.py:260-270).
The sub-keys are set one at a time (njord.py:384,402,441,448), so a field is
`none` while (or forever, if an exception interrupts the page) unset. -/
structure PageEntry where
  title : Option String := none
  normalLinks : Option (List String) := none
  anchorLinks : Option (List String) := none
  anchors : Option (List String) := none
deriving DecidableEq, Repr

/-- Python-dict association list: lookup by key. -/
def dictFind : List (String × PageEntry) → String → Option PageEntry
  | [], _ => none
  | (k, v) :: r, key => if k = key then some v else dictFind r key

/-- Python `d[k] = v`: replace in place, or append a new key. -/
def dictInsert : List (String × PageEntry) → String → PageEntry → List (String × PageEntry)
  | [], k, v => [(k, v)]
  | (k', v') :: r, k, v =>
    if k' = k then (k', v) :: r else (k', v') :: dictInsert r k v

/-- Python `d[k]['field'] = ...`: `none` when `k` is missing (KeyError). -/
def dictUpdate : List (String × PageEntry) → String → (PageEntry → PageEntry) → Option (List (String × PageEntry))
  | [], _, _ => none
  | (k', v') :: r, k, f =>
    if k' = k then some ((k', f v') :: r)
    else (dictUpdate r k f).map (fun r' => (k', v') :: r')

/-- Global state of the crawl phase (njord.py:241-259 and the loop
variables; `document` is the browser page source, which in Python keeps its
value from the previous loop iteration when `browser.get` raises). -/
structure CrawlState where
  document : Option String := none
  index : List (String × PageEntry) := []
  events : List OutEvent := []
  firstError : Bool := true
  exitCode : Nat := 0
  retrieved : Nat := 0
  absorel : Nat := 0
  wasAbsorel : List (String × String) := []
deriving DecidableEq, Repr

/-- The body of the second `try` of the crawl loop (njord.py:377-451):
title extraction, entry creation, normal-link rewriting and assignment,
anchor cleanup and assignment, id extraction and assignment.  An error
result is the state at the moment the exception was raised (the partially
populated entry stays in the index); the exception is caught by the
`except` of njord.py:453. -/
def processPageBody (cfg : Cfg) (st : CrawlState) (URL : String) : Except CrawlState CrawlState :=
  match st.document with
  | none => Except.error st
  | some doc =>
    match searchTitle doc.toList with
    | none => Except.error st
    | some title =>
      let st := { st with index := dictInsert st.index URL { title := some title } }
      let (URL1, normals) := rewriteNormalLinks URL (findNormalHrefs doc.toList)
      match dictUpdate st.index URL1 (fun e => { e with normalLinks := some normals }) with
      | none => Except.error st
      | some idx2 =>
        let st := { st with index := idx2 }
        let (URL2, cleaned, was, n) := cleanupAnchorLinks cfg.domain URL1 (findHrefAnchors doc.toList)
        let st := { st with wasAbsorel := st.wasAbsorel ++ was, absorel := st.absorel + n }
        match dictUpdate st.index URL2 (fun e => { e with anchorLinks := some cleaned }) with
        | none => Except.error st
        | some idx3 =>
          let st := { st with index := idx3 }
          let ids := findNameIds none doc.toList
          match dictUpdate st.index URL2 (fun e => { e with anchors := some ids }) with
          | none => Except.error st
          | some idx4 => Except.ok { st with index := idx4 }

/-- One iteration of the crawl loop `for URL in URLs` (njord.py:362-456).
Note that a `browser.get` failure records an `internalSitemap404` issue but
does NOT skip the rest of the body: control falls through to
`processPageBody` with the previous iteration's `document`.  In the failure
branch, `printNOK` itself can raise (NameError on the yet-undefined global
`page` when the headline is to be printed and the index is non-empty,
njord.py:155); such an exception escapes to the top-level handler. -/
def crawlStep (env : Env) (cfg : Cfg) (st : CrawlState) (URL : String) :
    Except (PyErr × CrawlState) CrawlState :=
  let st := { st with retrieved := st.retrieved + 1 }
  let fetchRes : Except (PyErr × CrawlState) CrawlState :=
    match env.browserFetch URL with
    | some d => Except.ok { st with document := some d }
    | none =>
      match printNOK cfg.beQuiet (! st.index.isEmpty) none "" "" URL st.firstError
          (some "internalSitemap404") "" HttpCode.unknown st.exitCode with
      | Except.ok (evs, f, ec) =>
        Except.ok { st with events := st.events ++ evs, firstError := f, exitCode := ec }
      | Except.error e => Except.error (e, st)
  match fetchRes with
  | Except.error e => Except.error e
  | Except.ok st =>
    match processPageBody cfg st URL with
    | Except.ok st' => Except.ok st'
    | Except.error st' =>
      match printNOK cfg.beQuiet (! st'.index.isEmpty) none "" "" URL st'.firstError
          (some "cantProcessPage") "" HttpCode.unknown st'.exitCode with
      | Except.ok (evs, f, ec) =>
        Except.ok { st' with events := st'.events ++ evs, firstError := f, exitCode := ec }
      | Except.error e => Except.error (e, st')

/-- The crawl loop over the sitemap URLs. -/
def runCrawlFrom (env : Env) (cfg : Cfg) : CrawlState → List String → Except (PyErr × CrawlState) CrawlState
  | st, [] => Except.ok st
  | st, u :: us =>
    match crawlStep env cfg st u with
    | Except.ok st' => runCrawlFrom env cfg st' us
    | Except.error e => Except.error e

/-- The crawl phase (njord.py:362-459): the loop over the sitemap URLs
followed by the `retrieved == 0` check that reports `noSitemapMatch`. -/
def runCrawl (env : Env) (cfg : Cfg) (URLs : List String) :
    Except (PyErr × CrawlState) CrawlState :=
  match runCrawlFrom env cfg {} URLs with
  | Except.error e => Except.error e
  | Except.ok st =>
    if st.retrieved = 0 then
      match printNOK cfg.beQuiet (! st.index.isEmpty) none "" "" "" false
          (some "noSitemapMatch") "" HttpCode.unknown st.exitCode with
      | Except.ok (evs, f, ec) =>
        Except.ok { st with events := st.events ++ evs, firstError := f, exitCode := ec }
      | Except.error e => Except.error (e, st)
    else Except.ok st

/-- A fully populated page record, as the validation loop reads it
(njord.py:465-571 accesses `['title']`, `['anchor-links']`,
`['normal-links']`, `['anchors']` of every entry; a partially populated
entry would raise a KeyError there, which the validation-phase theorems
exclude by taking complete records). -/
structure PageRec where
  title : String
  anchorLinks : List String
  normalLinks : List String
  anchors : List String
deriving DecidableEq, Repr

/-- Lookup in the validation-phase index (`linkBaseURL in
pagesLinksAndAnchors`, njord.py:500,514). -/
def lookupPage : List (String × PageRec) → String → Option PageRec
  | [], _ => none
  | (k, v) :: r, key => if k = key then some v else lookupPage r key

/-- One entry of the `checkedLinks` cache (njord.py:243,636,645-657):
`status` is `"OK"` or `"NOK"`; in Python `code` is filled right before
`status`, and both are always set by the end of the iteration that created
the entry, so the embedding inserts the completed entry. -/
structure LinkEntry where
  status : String
  code : HttpCode
deriving DecidableEq, Repr

/-- Cache lookup (`link in checkedLinks` / `checkedLinks[link]['status']`,
njord.py:625-626). -/
def lookupCache : List (String × LinkEntry) → String → Option LinkEntry
  | [], _ => none
  | (k, v) :: r, key => if k = key then some v else lookupCache r key

/-- Global state of the validation phase (njord.py:241-259).  The last four
fields are ghost instrumentation: `probeLog` records the URLs passed to
`sessionForRequests.get` in the normal-link probe, `browserLog` the URLs
passed to `browser.get` during validation, `normalOutcomes` the
(page, absolutised link, OK?) decision of every tallied normal-link
occurrence, and `cantGoOutsideCount` the anchor links that hit the
`cantGoOutside` branch (which updates no Python counter). -/
structure ValState where
  exitCode : Nat := 0
  firstError : Bool := true
  events : List OutEvent := []
  okInPage : Nat := 0
  nokInPage : Nat := 0
  okInternal : Nat := 0
  nokInternal : Nat := 0
  okAnchorOutside : Nat := 0
  nokAnchorOutside : Nat := 0
  okNormalLinks : Nat := 0
  unreachable : Nat := 0
  notInSitemap : Nat := 0
  pagesChecked : Nat := 0
  checkedLinks : List (String × LinkEntry) := []
  nokLinkMultiCheck : List String := []
  probeLog : List String := []
  browserLog : List String := []
  normalOutcomes : List (String × String × Bool) := []
  cantGoOutsideCount : Nat := 0
deriving DecidableEq, Repr

/-- Apply a `firstError = printNOK(...)` call to the state: append the
printed events, store the returned `first` and the new `exitCode`; an
exception inside `printNOK` escapes with the state as passed in. -/
def applyPrint (s : ValState) (r : Except PyErr (List OutEvent × Bool × Nat)) :
    Except (PyErr × ValState) ValState :=
  match r with
  | Except.ok (evs, f, ec) =>
    Except.ok { s with events := s.events ++ evs, firstError := f, exitCode := ec }
  | Except.error e => Except.error (e, s)

/-- One anchor link of the current page (njord.py:474-565).

`glURL` is the leftover global `URL` from the crawl loop, printed by the
out-of-scope failure branch (njord.py:530 passes `URL`, not the link).
Counter increments happen after the corresponding `printNOK` call exactly
when they do in the source.  The `requests.get(linkBaseURL)` of njord.py:510
is NOT inside any try block: its failure escapes as an uncaught exception. -/
def checkAnchorLink (env : Env) (cfg : Cfg) (glURL : String)
    (index : List (String × PageRec)) (page : String) (pgrec : PageRec)
    (s : ValState) (link : String) : Except (PyErr × ValState) ValState :=
  -- njord.py:485: if re.match('#', link)
  if pyStartsWith link "#" then
    -- njord.py:486: link.replace("#", "") removes every '#'
    if pgrec.anchors.contains (String.mk (link.toList.filter (fun c => c ≠ '#'))) then
      Except.ok { s with okInPage := s.okInPage + 1 }
    else
      (applyPrint s (printNOK cfg.beQuiet (! index.isEmpty) (some pgrec.title) link
        page link s.firstError none "" HttpCode.unknown s.exitCode)).map
        (fun t => { t with nokInPage := t.nokInPage + 1 })
  -- njord.py:493: elif re.match(f'{URLPath}', link)
  else if matchPrefixPattern cfg.URLPath.toList link.toList then
    match searchBaseSlashHash [] link.toList with
    | none => Except.error ("AttributeError: NoneType object has no attribute group", s)
    | some baseChars =>
      let linkBaseURL := String.mk baseChars
      let linkAnchor := afterFirstHash link
      match lookupPage index linkBaseURL with
      | some target =>
        -- njord.py:500-505
        if target.anchors.contains linkAnchor then
          Except.ok { s with okInternal := s.okInternal + 1 }
        else
          (applyPrint s (printNOK cfg.beQuiet (! index.isEmpty) (some pgrec.title) link
            page link s.firstError none "" HttpCode.unknown s.exitCode)).map
            (fun t => { t with nokInternal := t.nokInternal + 1 })
      | none =>
        -- njord.py:510: finalURL = requests.get(linkBaseURL).url  (no try)
        match env.probe linkBaseURL with
        | none => Except.error ("requests.exceptions raised by requests.get", s)
        | some finalURL =>
          match lookupPage index finalURL with
          | some target =>
            -- njord.py:514-519
            if target.anchors.contains linkAnchor then
              Except.ok { s with okInternal := s.okInternal + 1 }
            else
              (applyPrint s (printNOK cfg.beQuiet (! index.isEmpty) (some pgrec.title) link
                page link s.firstError none finalURL HttpCode.unknown s.exitCode)).map
                (fun t => { t with nokInternal := t.nokInternal + 1 })
          | none =>
            -- njord.py:521-531: fetch the out-of-scope page and check the
            -- anchor directly in its markup
            let s1 := { s with browserLog := s.browserLog ++ [finalURL] }
            match env.browserFetch finalURL with
            | some outscopePage =>
              if hasNameOrId linkAnchor outscopePage then
                Except.ok { s1 with okInternal := s1.okInternal + 1 }
              else
                Except.ok { s1 with nokInternal := s1.nokInternal + 1 }
            | none =>
              (applyPrint s1 (printNOK cfg.beQuiet (! index.isEmpty) (some pgrec.title) link
                "" glURL s1.firstError (some "internalSitemap404") "" HttpCode.unknown
                s1.exitCode)).map
                (fun t => { t with notInSitemap := t.notInSitemap + 1 })
  -- njord.py:535-565: the link leads outside the (sub)portal
  else
    if cfg.noExternal = false then
      let s1 := { s with browserLog := s.browserLog ++ [link] }
      match env.browserFetch link with
      | some outsidePage =>
        -- njord.py:544: re.search(r'(.*?)#', link).group(1) raises inside
        -- the try when the link has no '#', landing in the except branch
        if link.toList.contains '#' then
          if hasNameOrId (afterFirstHash link) outsidePage then
            Except.ok { s1 with okAnchorOutside := s1.okAnchorOutside + 1 }
          else
            (applyPrint s1 (printNOK cfg.beQuiet (! index.isEmpty) (some pgrec.title) link
              page link s1.firstError (some "externalNOK") "" HttpCode.unknown
              s1.exitCode)).map
              (fun t => { t with nokAnchorOutside := t.nokAnchorOutside + 1 })
        else
          (applyPrint s1 (printNOK cfg.beQuiet (! index.isEmpty) (some pgrec.title) link
            page link s1.firstError (some ">399") "" HttpCode.unknown s1.exitCode)).map
            (fun t => { t with unreachable := t.unreachable + 1 })
      | none =>
        -- njord.py:559-561: the fetch raised; type ">399"
        (applyPrint s1 (printNOK cfg.beQuiet (! index.isEmpty) (some pgrec.title) link
          page link s1.firstError (some ">399") "" HttpCode.unknown s1.exitCode)).map
          (fun t => { t with unreachable := t.unreachable + 1 })
    else
      -- njord.py:564-565 (ghost counter only; no Python tally here)
      applyPrint { s with cantGoOutsideCount := s.cantGoOutsideCount + 1 }
        (printNOK cfg.beQuiet (! index.isEmpty) (some pgrec.title) link
          page link s.firstError (some "cantGoOutside") "" HttpCode.unknown s.exitCode)

/-- One normal link of the current page (njord.py:571-665). -/
def checkNormalLink (env : Env) (cfg : Cfg) (index : List (String × PageRec))
    (page : String) (pgrec : PageRec) (s : ValState) (link0 : String) :
    Except (PyErr × ValState) ValState :=
  let link := absolutizeNormal cfg.domain link0
  if normalLinkDenied link then Except.ok s
  else
    match lookupCache s.checkedLinks link with
    | some entry =>
      -- njord.py:625-629: cache hit; tally only, no printNOK call
      if entry.status = "OK" then
        Except.ok { s with okNormalLinks := s.okNormalLinks + 1,
                           normalOutcomes := s.normalOutcomes ++ [(page, link, true)] }
      else
        Except.ok { s with unreachable := s.unreachable + 1,
                           normalOutcomes := s.normalOutcomes ++ [(page, link, false)] }
    | none =>
      -- njord.py:632-661: cache miss; checkedLinks[link] = {} then probe
      match env.sessionGet link with
      | some code =>
        if code < 400 then
          Except.ok { s with
            checkedLinks := s.checkedLinks ++ [(link, ⟨"OK", HttpCode.num code⟩)],
            probeLog := s.probeLog ++ [link],
            okNormalLinks := s.okNormalLinks + 1,
            normalOutcomes := s.normalOutcomes ++ [(page, link, true)] }
        else
          let s1 := { s with
            checkedLinks := s.checkedLinks ++ [(link, ⟨"NOK", HttpCode.num code⟩)],
            probeLog := s.probeLog ++ [link],
            unreachable := s.unreachable + 1,
            normalOutcomes := s.normalOutcomes ++ [(page, link, false)] }
          if s1.nokLinkMultiCheck.contains link then Except.ok s1
          else
            applyPrint { s1 with nokLinkMultiCheck := s1.nokLinkMultiCheck ++ [link] }
              (printNOK cfg.beQuiet (! index.isEmpty) (some pgrec.title) link
                page link s1.firstError (some "normalLinkUnreachable") ""
                (HttpCode.num code) s1.exitCode)
      | none =>
        -- njord.py:655-661: the probe raised; code "unknown"
        let s1 := { s with
          checkedLinks := s.checkedLinks ++ [(link, ⟨"NOK", HttpCode.unknown⟩)],
          probeLog := s.probeLog ++ [link],
          unreachable := s.unreachable + 1,
          normalOutcomes := s.normalOutcomes ++ [(page, link, false)] }
        if s1.nokLinkMultiCheck.contains link then Except.ok s1
        else
          applyPrint { s1 with nokLinkMultiCheck := s1.nokLinkMultiCheck ++ [link] }
            (printNOK cfg.beQuiet (! index.isEmpty) (some pgrec.title) link
              page link s1.firstError (some "normalLinkUnresolved") ""
              HttpCode.unknown s1.exitCode)

/-- Sequential processing of a list, stopping at the first uncaught
exception (the `for` loops of the validation phase). -/
def runSeq {α : Type} (f : ValState → α → Except (PyErr × ValState) ValState) :
    ValState → List α → Except (PyErr × ValState) ValState
  | s, [] => Except.ok s
  | s, a :: as =>
    match f s a with
    | Except.ok s' => runSeq f s' as
    | Except.error e => Except.error e

/-- One page of the validation loop (njord.py:465-671): reset `firstError`
and `nokLinkMultiCheck`, process the anchor links, then the normal links,
then count the page. -/
def runPage (env : Env) (cfg : Cfg) (glURL : String) (index : List (String × PageRec))
    (s : ValState) (pg : String × PageRec) : Except (PyErr × ValState) ValState :=
  let s := { s with firstError := true, nokLinkMultiCheck := [] }
  match runSeq (checkAnchorLink env cfg glURL index pg.1 pg.2) s pg.2.anchorLinks with
  | Except.error e => Except.error e
  | Except.ok s =>
    match runSeq (checkNormalLink env cfg index pg.1 pg.2) s pg.2.normalLinks with
    | Except.error e => Except.error e
    | Except.ok s => Except.ok { s with pagesChecked := s.pagesChecked + 1 }

/-- The validation phase: `for page in pagesLinksAndAnchors`
(njord.py:465), starting from the initial global state. -/
def runValidation (env : Env) (cfg : Cfg) (glURL : String)
    (index : List (String × PageRec)) : Except (PyErr × ValState) ValState :=
  runSeq (runPage env cfg glURL index) {} index

/-- `Except.ok`? (helper; the run reached `finishAndQuit` normally). -/
def exceptOk {ε α : Type} : Except ε α → Bool
  | Except.ok _ => true
  | Except.error _ => false

/-- The anchor tallies of claim C7: the six OK/NOK anchor counters plus
`unreachable`, `notInSitemap` and the (ghost) count of `cantGoOutside`
outcomes. -/
def anchorTallySum (s : ValState) : Nat :=
  s.okInPage + s.nokInPage + s.okInternal + s.nokInternal
  + s.okAnchorOutside + s.nokAnchorOutside + s.unreachable + s.notInSitemap
  + s.cantGoOutsideCount

/-- Invariant tying the probe log to the `checkedLinks` cache: each URL was
probed at most once, a URL is in the cache exactly when it was probed, and
every tallied normal-link outcome agrees with the cached status of its
link. -/
def CacheInv (s : ValState) : Prop :=
  s.probeLog.Nodup
  ∧ (∀ L, L ∈ s.probeLog ↔ (lookupCache s.checkedLinks L).isSome)
  ∧ (∀ p L b, (p, L, b) ∈ s.normalOutcomes →
      ∃ e, lookupCache s.checkedLinks L = some e ∧ (e.status = "OK" ↔ b = true))

/-! ### Concrete instances evaluated by the theorems -/

/-- Scope `https://d`, no folder, not quiet, externals allowed. -/
def cfgD : Cfg := { domain := "https://d", folder := "", beQuiet := false, noExternal := false }

/-- Same scope with the quiet switch set. -/
def cfgQuietD : Cfg := { domain := "https://d", folder := "", beQuiet := true, noExternal := false }

/-- A world in which every network and browser call raises. -/
def envNone : Env :=
  { browserFetch := fun _ => none, probe := fun _ => none, sessionGet := fun _ => none }

/-- C1 world: only `https://d/b` renders (to a minimal titled page);
fetching `https://d/a` and `https://d/c` raises. -/
def envC1 : Env :=
  { browserFetch := fun u => if u = "https://d/b" then some "<title>B</title>" else none,
    probe := fun _ => none, sessionGet := fun _ => none }

/-- C1 crawl over a three-URL sitemap whose first and third pages fail. -/
def crawlResC1 : Except (PyErr × CrawlState) CrawlState :=
  runCrawl envC1 cfgD ["https://d/a", "https://d/b", "https://d/c"]

/-- Final crawl state of the C1 run. -/
def crawlStC1 : CrawlState :=
  match crawlResC1 with
  | Except.ok s => s
  | Except.error e => e.2

/-- C2 page: an internal cross-page anchor link followed by a valid in-page
anchor link. -/
def recC2 : PageRec :=
  { title := "R", anchorLinks := ["https://d/x#frag", "#sec"], normalLinks := [],
    anchors := ["sec"] }

/-- C2 validation in the all-raising world: the redirect probe for
`https://d/x` raises. -/
def valResC2 : Except (PyErr × ValState) ValState :=
  runValidation envNone cfgD "g" [("https://d/p", recC2)]

/-- Validation state at the moment the uncaught probe exception escaped. -/
def valErrStC2 : ValState :=
  match valResC2 with
  | Except.ok s => s
  | Except.error e => e.2

/-- A world whose redirect probe never raises (used by the C2 witness). -/
def envProbeOkC2 : Env :=
  { browserFetch := fun _ => none, probe := fun _ => some "https://d/q",
    sessionGet := fun _ => none }

/-- C3 page: one internal cross-page anchor link whose base URL is not
indexed. -/
def recC3 : PageRec :=
  { title := "P", anchorLinks := ["https://d/x#frag"], normalLinks := [], anchors := [] }

/-- C3 index: only `https://d/p` is indexed. -/
def idxC3 : List (String × PageRec) := [("https://d/p", recC3)]

/-- C3 world: the redirect probe resolves `https://d/x` to the unindexed
`https://d/y`, whose rendered markup contains the anchor. -/
def envC3 : Env :=
  { browserFetch := fun u => if u = "https://d/y" then some "<h1 id=\"frag\">" else none,
    probe := fun u => if u = "https://d/x" then some "https://d/y" else none,
    sessionGet := fun _ => none }

/-- C3 validation run. -/
def valResC3 : Except (PyErr × ValState) ValState := runValidation envC3 cfgD "g" idxC3

/-- Final state of the C3 run. -/
def valStC3 : ValState :=
  match valResC3 with
  | Except.ok s => s
  | Except.error e => e.2

/-- State after the single C3 anchor-link step (for the amended witness). -/
def stepStC3 : ValState :=
  match checkAnchorLink envC3 cfgD "g" idxC3 "https://d/p" recC3 {} "https://d/x#frag" with
  | Except.ok s => s
  | Except.error e => e.2

/-- C4 page: one external anchor link. -/
def recC4 : PageRec :=
  { title := "Q", anchorLinks := ["https://other.org/z#a"], normalLinks := [], anchors := [] }

/-- C4 index. -/
def idxC4 : List (String × PageRec) := [("https://d/p", recC4)]

/-- C4 validation run in the all-raising world: the external fetch fails. -/
def valResC4 : Except (PyErr × ValState) ValState := runValidation envNone cfgD "g" idxC4

/-- Final state of the C4 run. -/
def valStC4 : ValState :=
  match valResC4 with
  | Except.ok s => s
  | Except.error e => e.2

/-- State after the single C4 anchor-link step (for the amended witness). -/
def stepStC4 : ValState :=
  match checkAnchorLink envNone cfgD "g" idxC4 "https://d/p" recC4 {} "https://other.org/z#a" with
  | Except.ok s => s
  | Except.error e => e.2

/-- C5 page: one normal link, shared by two pages. -/
def recC5 : PageRec :=
  { title := "S", anchorLinks := [], normalLinks := ["https://w.org/x"], anchors := [] }

/-- C5 index: the same normal link occurs on two pages. -/
def idxC5 : List (String × PageRec) := [("https://d/p1", recC5), ("https://d/p2", recC5)]

/-- C5 world: probing the link answers 200. -/
def envC5 : Env :=
  { browserFetch := fun _ => none, probe := fun _ => none,
    sessionGet := fun u => if u = "https://w.org/x" then some 200 else none }

/-- Final state of the C5 run. -/
def valStC5 : ValState :=
  match runValidation envC5 cfgD "g" idxC5 with
  | Except.ok s => s
  | Except.error e => e.2

/-- C6 page: one broken normal link, shared by two pages. -/
def recC6 : PageRec :=
  { title := "L", anchorLinks := [], normalLinks := ["https://w.org/bad"], anchors := [] }

/-- C6 index. -/
def idxC6 : List (String × PageRec) := [("https://d/p1", recC6), ("https://d/p2", recC6)]

/-- C6 world: probing the link answers 404. -/
def envC6 : Env :=
  { browserFetch := fun _ => none, probe := fun _ => none,
    sessionGet := fun u => if u = "https://w.org/bad" then some 404 else none }

/-- C6 validation run. -/
def valResC6 : Except (PyErr × ValState) ValState := runValidation envC6 cfgD "g" idxC6

/-- Final state of the C6 run. -/
def valStC6 : ValState :=
  match valResC6 with
  | Except.ok s => s
  | Except.error e => e.2

/-- A state whose cache already holds a NOK entry for the C6 link (the
situation of a later page revisiting a link first probed earlier). -/
def cacheStC6 : ValState :=
  { checkedLinks := [("https://w.org/bad", { status := "NOK", code := HttpCode.num 404 })] }

/-- State after a cache-hit normal-link step on the second page. -/
def stepStC6 : ValState :=
  match checkNormalLink envC6 cfgD idxC6 "https://d/p2" recC6 cacheStC6 "https://w.org/bad" with
  | Except.ok s => s
  | Except.error e => e.2

/-- C7 page: an in-page OK link, an external link whose page renders and
holds the anchor, and an external link whose fetch fails. -/
def recC7 : PageRec :=
  { title := "C", anchorLinks := ["#ok", "https://e.org/x#y", "https://e.org/no"],
    normalLinks := [], anchors := ["ok"] }

/-- C7 index. -/
def idxC7 : List (String × PageRec) := [("https://d/p", recC7)]

/-- C7 world. -/
def envC7 : Env :=
  { browserFetch := fun u => if u = "https://e.org/x#y" then some "<p id=\"y\">" else none,
    probe := fun _ => none, sessionGet := fun _ => none }

/-- State after processing the C7 page's anchor links from the initial
state. -/
def anchorStC7 : ValState :=
  match runSeq (checkAnchorLink envC7 cfgD "g" idxC7 "https://d/p" recC7) {} recC7.anchorLinks with
  | Except.ok s => s
  | Except.error e => e.2

/-- C8 validation run: quiet mode, one page whose only normal link's probe
raises. -/
def valResC8 : Except (PyErr × ValState) ValState :=
  runValidation envNone cfgQuietD "g" [("https://d/p1", recC6)]

/-- Final state of the C8 run. -/
def valStC8 : ValState :=
  match valResC8 with
  | Except.ok s => s
  | Except.error e => e.2

/-- C9 world: the single page renders to a titled page with one
domain-relative normal link. -/
def envC9 : Env :=
  { browserFetch := fun u =>
      if u = "https://d/p" then some "<title>T</title><a href=\"/foo\">x</a>" else none,
    probe := fun _ => none, sessionGet := fun _ => none }

/-- C9 crawl over a one-URL sitemap. -/
def crawlResC9 : Except (PyErr × CrawlState) CrawlState := runCrawl envC9 cfgD ["https://d/p"]

/-- Final crawl state of the C9 run. -/
def crawlStC9 : CrawlState :=
  match crawlResC9 with
  | Except.ok s => s
  | Except.error e => e.2

/-! ### Theorems -/

/-- Claim C1 (code side): on a sitemap `[a, b, c]` where fetching `a` and
`c` raises and `b` renders to `<title>B</title>`, the crawl records the
`internalSitemap404` issue for `c` and continues — but, the fetch-failure
branch having no `continue`, it then indexes `c` anyway, populated from the
stale `document` of page `b` (its title is "B").  This refutes the claim's
"that URL is not inserted into the PageIndex": the missing skip is the code
bug. -/
theorem C1_failed_fetch_still_indexed :
    exceptOk crawlResC1 = true
    ∧ crawlStC1.events.count (OutEvent.internalSitemap404 "https://d/c") = 1
    ∧ (dictFind crawlStC1.index "https://d/c").bind PageEntry.title = some "B" := by
  decide

/-- Claim C2 counterexample: a failure tied to a single link — the
`requests.get(linkBaseURL)` redirect probe raising for the internal
cross-page link `https://d/x#frag` — is NOT caught and converted to an
issue: the run aborts with an uncaught exception before any issue is
recorded, and the page's remaining in-page link `#sec` (which would have
counted as in-page OK) is never processed. -/
theorem C2_probe_exception_aborts_run :
    exceptOk valResC2 = false
    ∧ valErrStC2.events = []
    ∧ valErrStC2.okInPage = 0
    ∧ valErrStC2.pagesChecked = 0 := by
  decide

/-- Claim C3 counterexample: for the internal cross-page link
`https://d/x#frag` whose base URL is unindexed and whose redirect-followed
final URL `https://d/y` is unindexed too, the validator DOES attempt
recovery — it fetches `https://d/y` with the browser (recorded in
`browserLog`), finds the fragment in the markup, counts internal-OK, and
reports no issue and no `notInSitemap` tally. -/
theorem C3_out_of_scope_recovery_attempted :
    exceptOk valResC3 = true
    ∧ valStC3.notInSitemap = 0
    ∧ valStC3.okInternal = 1
    ∧ valStC3.browserLog = ["https://d/y"]
    ∧ valStC3.events = [] := by
  decide

/-- Claim C4 counterexample: when the fetch of the page behind the external
anchor link `https://other.org/z#a` fails, the issue is printed through the
fallback error branch ("Anchor NOK") and the exit status becomes 1 — the
outcome is not a non-fatal warning. -/
theorem C4_external_fetch_failure_sets_exit_code :
    exceptOk valResC4 = true
    ∧ valStC4.exitCode = 1
    ∧ valStC4.unreachable = 1
    ∧ valStC4.events.count (OutEvent.anchorNOK "https://other.org/z#a") = 1 := by
  decide

/-- Claim C6 counterexample: the broken link `https://w.org/bad` occurs on
two pages; it is probed (404) and reported once on the first page; on the
second page the cache hit increments `unreachable` (to 2) but emits no
issue at all, although the link had not yet been reported for that page —
the full event list shows exactly one report. -/
theorem C6_cache_hit_nok_emits_no_issue :
    exceptOk valResC6 = true
    ∧ valStC6.unreachable = 2
    ∧ valStC6.events = [OutEvent.headline "L" "https://d/p1",
        OutEvent.normalLinkUnreachable "https://w.org/bad" (HttpCode.num 404)] := by
  decide

/-- Claim C8 (code side): with the quiet switch set, a normal link whose
probe raises still gets its warning-severity `normalLinkUnresolved` line
printed (together with the page headline) — the `normalLinkUnresolved`
branch of `printNOK` has no `beQuiet` check, contradicting the `-q` help
text "Do not print warnings". -/
theorem C8_unresolved_warning_printed_despite_quiet :
    cfgQuietD.beQuiet = true
    ∧ exceptOk valResC8 = true
    ∧ valStC8.events.count
        (OutEvent.normalLinkUnresolved "https://w.org/bad" HttpCode.unknown) = 1 := by
  decide

/-- Claim C9 counterexample: crawling a page containing
`<a href="/foo">x</a>` stores the normal link as the domain-relative
`"/foo"` — extraction does not rewrite `/`-leading links to
`domain + link` before the sequence is assigned to the record. -/
theorem C9_relative_link_stored_unrewritten :
    exceptOk crawlResC9 = true
    ∧ (dictFind crawlStC9.index "https://d/p").bind PageEntry.normalLinks = some ["/foo"]
    ∧ pyStartsWith "/foo" "/" = true
    ∧ ("/foo" : String) ≠ cfgD.domain ++ "/foo" := by
  decide

/-! ### Helper lemmas -/

theorem exceptMap_ok {g : ValState → ValState} {e : Except (PyErr × ValState) ValState}
    {s' : ValState} (h : Except.map g e = Except.ok s') :
    ∃ t, e = Except.ok t ∧ s' = g t := by
  cases e with
  | ok a => exact ⟨a, rfl, by simpa [Except.map] using h.symm⟩
  | error e => simp [Except.map] at h

/-- `applyPrint` only touches `events`, `firstError` and `exitCode`. -/
theorem applyPrint_ok {s t : ValState} {r : Except PyErr (List OutEvent × Bool × Nat)}
    (h : applyPrint s r = Except.ok t) :
    ∃ evs f ec, r = Except.ok (evs, f, ec)
      ∧ t = { s with events := s.events ++ evs, firstError := f, exitCode := ec } := by
  cases r with
  | ok a =>
    obtain ⟨evs, f, ec⟩ := a
    refine ⟨evs, f, ec, rfl, ?_⟩
    simpa [applyPrint] using h.symm
  | error e => simp [applyPrint] at h

/-- With the page title available, the headline part of `printNOK` never
raises, and the headline it may print is one of the two header lines. -/
theorem printNOKHeadline_someTitle (bq ine : Bool) (t pg : String) (first : Bool)
    (ty : Option String) :
    ∃ hd, printNOKHeadline bq ine (some t) pg first ty = Except.ok hd
      ∧ (hd = [] ∨ hd = [OutEvent.headline t pg] ∨ hd = [OutEvent.genericHeadline]) := by
  unfold printNOKHeadline
  split
  · split
    · exact ⟨_, rfl, Or.inr (Or.inl rfl)⟩
    · exact ⟨_, rfl, Or.inr (Or.inr rfl)⟩
  · exact ⟨_, rfl, Or.inl rfl⟩

/-- With the page title available (the situation of every validation-phase
call), `printNOK` never raises and returns the headline (if any) followed
by the branch output. -/
theorem printNOK_someTitle_ok (bq ine : Bool) (t glLink pg ln : String) (first : Bool)
    (ty : Option String) (redir : String) (hc : HttpCode) (ec0 : Nat) :
    ∃ hd,
      printNOK bq ine (some t) glLink pg ln first ty redir hc ec0
        = Except.ok (hd ++ (printNOKBranch bq glLink ln first ty redir hc ec0).1,
            (printNOKBranch bq glLink ln first ty redir hc ec0).2.1,
            (printNOKBranch bq glLink ln first ty redir hc ec0).2.2)
      ∧ (hd = [] ∨ hd = [OutEvent.headline t pg] ∨ hd = [OutEvent.genericHeadline]) := by
  obtain ⟨hd, heq, hsh⟩ := printNOKHeadline_someTitle bq ine t pg first ty
  exact ⟨hd, by simp [printNOK, heq], hsh⟩

/-- The `">399"` type matches no named branch and falls to the final `else`
of `printNOK`: an "Anchor NOK" error line, `first := false`, exit code 1. -/
theorem printNOK_type399 (bq ine : Bool) (t glLink pg ln : String) (first : Bool)
    (redir : String) (hc : HttpCode) (ec0 : Nat) :
    ∃ hd,
      printNOK bq ine (some t) glLink pg ln first (some ">399") redir hc ec0
        = Except.ok (hd ++ [OutEvent.anchorNOK ln], false, 1)
      ∧ ∀ l, hd.count (OutEvent.anchorNOK l) = 0 := by
  obtain ⟨hd, heq, hsh⟩ :=
    printNOK_someTitle_ok bq ine t glLink pg ln first (some ">399") redir hc ec0
  have hbr : printNOKBranch bq glLink ln first (some ">399") redir hc ec0
      = ([OutEvent.anchorNOK ln], false, 1) := by
    simp [printNOKBranch]
  rw [hbr] at heq
  exact ⟨hd, heq, fun l => by rcases hsh with rfl | rfl | rfl <;> simp⟩

theorem stripOneTrailingSlash_cons (c : Char) (l : List Char) (h : l ≠ []) :
    stripOneTrailingSlash (c :: l) = c :: stripOneTrailingSlash l := by
  rcases l with _ | ⟨a, as⟩
  · exact absurd rfl h
  · unfold stripOneTrailingSlash
    rw [List.getLast?_cons_cons]
    split
    · rw [List.dropLast_cons₂]
    · rfl

/-- General characterisation of the `(.*?)/?#` split: on a newline-free
link containing `'#'`, the captured group is the text before the first
`'#'` with at most one trailing `'/'` removed. -/
theorem searchBaseSlashHash_eq (cs : List Char) : ∀ acc : List Char, '#' ∈ cs → '\n' ∉ cs →
    searchBaseSlashHash acc cs =
      some (acc.reverse ++ stripOneTrailingSlash (cs.takeWhile (fun c => c ≠ '#'))) := by
  induction cs with
  | nil => intro acc h _; simp at h
  | cons c rest ih =>
    intro acc hmem hnl
    by_cases hc : c = '#'
    · subst hc
      simp [searchBaseSlashHash, stripOneTrailingSlash]
    · have hmem' : '#' ∈ rest := by
        rcases List.mem_cons.mp hmem with h | h
        · exact absurd h.symm hc
        · exact h
      have hnlc : c ≠ '\n' := fun h => hnl (h ▸ List.mem_cons_self c rest)
      have hnl' : '\n' ∉ rest := fun h => hnl (List.mem_cons_of_mem c h)
      by_cases hsl : c = '/' ∧ rest.head? = some '#'
      · rcases rest with _ | ⟨d, ds⟩
        · simp at hmem'
        · obtain ⟨rfl, hd⟩ := hsl
          simp only [List.head?_cons, Option.some.injEq] at hd
          subst hd
          simp [searchBaseSlashHash, stripOneTrailingSlash]
      · have hstep : searchBaseSlashHash acc (c :: rest)
              = searchBaseSlashHash (c :: acc) rest := by
          simp only [searchBaseSlashHash]
          rw [if_neg hc, if_neg hsl, if_neg hnlc]
        rw [hstep, ih (c :: acc) hmem' hnl']
        rcases rest with _ | ⟨d, ds⟩
        · simp at hmem'
        · by_cases hd : d = '#'
          · subst hd
            have hcslash : c ≠ '/' := fun h => hsl ⟨h, rfl⟩
            simp [List.takeWhile_cons, hc, stripOneTrailingSlash, hcslash]
          · have htw : (List.takeWhile (fun x => decide (x ≠ '#')) (d :: ds)) ≠ [] := by
              simp [List.takeWhile_cons, hd]
            have htwc : List.takeWhile (fun x => decide (x ≠ '#')) (c :: d :: ds)
                = c :: List.takeWhile (fun x => decide (x ≠ '#')) (d :: ds) := by
              simp [List.takeWhile_cons, hc]
            rw [htwc, stripOneTrailingSlash_cons c _ htw]
            simp

/-- The split applied to `K ++ "/#" ++ frag` shapes: the group is exactly
`K` (the single trailing slash is removed). -/
theorem searchBaseSlashHash_append (K : List Char) :
    ∀ (acc rest : List Char), '#' ∉ K → '\n' ∉ K →
      searchBaseSlashHash acc (K ++ '/' :: '#' :: rest) = some (acc.reverse ++ K) := by
  induction K with
  | nil =>
    intro acc rest _ _
    simp [searchBaseSlashHash]
  | cons c K ih =>
    intro acc rest hh hn
    have hc : c ≠ '#' := fun h => hh (h ▸ List.mem_cons_self c K)
    have hcn : c ≠ '\n' := fun h => hn (h ▸ List.mem_cons_self c K)
    have hh' : '#' ∉ K := fun h => hh (List.mem_cons_of_mem c h)
    have hn' : '\n' ∉ K := fun h => hn (List.mem_cons_of_mem c h)
    have hguard : ¬ (c = '/' ∧ (K ++ '/' :: '#' :: rest).head? = some '#') := by
      rintro ⟨-, hhd⟩
      rcases K with _ | ⟨k, ks⟩
      · simp at hhd
      · simp only [List.cons_append, List.head?_cons, Option.some.injEq] at hhd
        exact hh' (hhd ▸ List.mem_cons_self k ks)
    have hstep : searchBaseSlashHash acc ((c :: K) ++ '/' :: '#' :: rest)
        = searchBaseSlashHash (c :: acc) (K ++ '/' :: '#' :: rest) := by
      rw [List.cons_append]
      simp only [searchBaseSlashHash]
      rw [if_neg hc, if_neg hguard, if_neg hcn]
    rw [hstep, ih (c :: acc) rest hh' hn']
    simp

/-- The `"internalSitemap404"` branch of `printNOK`: an error line, exit
code 1. -/
theorem printNOK_typeSitemap404 (bq ine : Bool) (t glLink pg ln : String) (first : Bool)
    (redir : String) (hc : HttpCode) (ec0 : Nat) :
    ∃ hd,
      printNOK bq ine (some t) glLink pg ln first (some "internalSitemap404") redir hc ec0
        = Except.ok (hd ++ [OutEvent.internalSitemap404 ln], false, 1)
      ∧ ∀ l, hd.count (OutEvent.internalSitemap404 l) = 0 := by
  obtain ⟨hd, heq, hsh⟩ :=
    printNOK_someTitle_ok bq ine t glLink pg ln first (some "internalSitemap404") redir hc ec0
  have hbr : printNOKBranch bq glLink ln first (some "internalSitemap404") redir hc ec0
      = ([OutEvent.internalSitemap404 ln], false, 1) := by
    simp [printNOKBranch]
  rw [hbr] at heq
  exact ⟨hd, heq, fun l => by rcases hsh with rfl | rfl | rfl <;> simp⟩

/-- Head of the rewritten normal-link list (projection of
`rewriteNormalLinks` through the `../` decision). -/
theorem rewriteNormalLinks_snd_cons (URL a : String) (as : List String) :
    (rewriteNormalLinks URL (a :: as)).2 =
      (if thirdCharSlash a.toList then
          ensureSlash URL ++ "../" ++ String.mk (a.toList.drop 3) else a)
      :: (rewriteNormalLinks (if thirdCharSlash a.toList then ensureSlash URL else URL) as).2 := by
  by_cases h : thirdCharSlash a.data
  · rcases hre : rewriteNormalLinks (ensureSlash URL) as with ⟨u', ls'⟩
    simp [rewriteNormalLinks, String.toList, h, hre]
  · rcases hre : rewriteNormalLinks URL as with ⟨u', ls'⟩
    simp [rewriteNormalLinks, String.toList, h, hre]

/-- Claim C9, amended: a normal link beginning with `/` (and not of the
`../`-shape that the extraction rewrites) is stored in the record's
normal-links sequence unchanged, i.e. still domain-relative; it is the
validator that later absolutises it to `domain + link`
(njord.py:574-575). -/
theorem C9_amended_validator_absolutizes (URL domain : String) (links : List String)
    (l : String) (h1 : l ∈ links) (h2 : pyStartsWith l "/" = true)
    (h3 : thirdCharSlash l.toList = false) :
    l ∈ (rewriteNormalLinks URL links).2 ∧ absolutizeNormal domain l = domain ++ l := by
  have h3' : thirdCharSlash l.data = false := h3
  constructor
  · induction links generalizing URL with
    | nil => simp at h1
    | cons a as ih =>
      rw [rewriteNormalLinks_snd_cons]
      rcases List.mem_cons.mp h1 with rfl | hmem
      · rw [if_neg (by simp [String.toList, h3'])]
        exact List.mem_cons_self _ _
      · exact List.mem_cons_of_mem _ (ih _ hmem)
  · simp [absolutizeNormal, h2]

/-- Claim C9 amended, witness: the link `/foo` of the C9 counterexample
page is stored as-is and absolutised by the validator. -/
theorem C9_amended_witness :
    ("/foo" : String) ∈ (rewriteNormalLinks "https://d/p" ["/foo"]).2
    ∧ absolutizeNormal "https://d" "/foo" = "https://d" ++ "/foo" :=
  C9_amended_validator_absolutizes "https://d/p" "https://d" ["/foo"] "/foo"
    (by simp) (by decide) (by decide)

/-- Claim C10: the base URL used for the PageIndex lookup of an internal
cross-page anchor link is the portion before the first `#` with at most one
trailing `/` removed; hence a link `K ++ "/#frag"` resolves against the key
`K`, which is distinct from the key `K ++ "/"` — a page indexed under a
key ending in `/` is not matched by the direct lookup. -/
theorem C10_base_url_split :
    (∀ link : List Char, '#' ∈ link → '\n' ∉ link →
        searchBaseSlashHash [] link =
          some (stripOneTrailingSlash (link.takeWhile (fun c => c ≠ '#'))))
    ∧ (∀ K frag : String, '#' ∉ K.toList → '\n' ∉ K.toList →
        searchBaseSlashHash [] (K ++ "/#" ++ frag).toList = some K.toList
        ∧ K ≠ K ++ "/") := by
  constructor
  · intro link h1 h2
    simpa using searchBaseSlashHash_eq link [] h1 h2
  · intro K frag h1 h2
    constructor
    · have hsplit : (K ++ "/#" ++ frag).toList = K.toList ++ '/' :: '#' :: frag.toList := by
        simp [String.toList, String.data_append]
      rw [hsplit]
      simpa using searchBaseSlashHash_append K.toList [] frag.toList h1 h2
    · intro h
      have hlen := congrArg (fun s => s.toList.length) h
      simp [String.toList, String.data_append] at hlen

/-- Claim C10 witness: the split at a concrete scope-prefixed link. -/
theorem C10_witness :
    searchBaseSlashHash [] (("https://d/f/page" ++ "/#" ++ "frag" : String)).toList
        = some ("https://d/f/page" : String).toList
    ∧ ("https://d/f/page" : String) ≠ "https://d/f/page" ++ "/" :=
  C10_base_url_split.2 "https://d/f/page" "frag" (by decide) (by decide)

/-- Claim C4, amended: when the fetch of the page behind an external anchor
link fails, the resulting issue goes through the fallback "Anchor NOK"
error branch of `printNOK` (the `">399"` type matches no warning branch):
the exit code becomes 1, the `unreachable` tally is incremented, and an
`anchorNOK` error line is printed. -/
theorem C4_amended_error_branch (env : Env) (cfg : Cfg) (glURL : String)
    (index : List (String × PageRec)) (page : String) (pgrec : PageRec)
    (s s' : ValState) (link : String)
    (h1 : pyStartsWith link "#" = false)
    (h2 : matchPrefixPattern cfg.URLPath.toList link.toList = false)
    (h3 : cfg.noExternal = false)
    (h4 : env.browserFetch link = none)
    (h5 : checkAnchorLink env cfg glURL index page pgrec s link = Except.ok s') :
    s'.exitCode = 1
    ∧ s'.unreachable = s.unreachable + 1
    ∧ s'.events.count (OutEvent.anchorNOK link)
        = s.events.count (OutEvent.anchorNOK link) + 1 := by
  unfold checkAnchorLink at h5
  simp only [h1, h2, h3, h4, Bool.false_eq_true, if_false, ite_false] at h5
  obtain ⟨t, happ, rfl⟩ := exceptMap_ok h5
  obtain ⟨evs, f, ec, hpr, rfl⟩ := applyPrint_ok happ
  obtain ⟨hd, heq, hcnt⟩ := printNOK_type399 cfg.beQuiet (! index.isEmpty) pgrec.title
    link page link s.firstError "" HttpCode.unknown s.exitCode
  rw [heq] at hpr
  obtain ⟨h1', h2', h3'⟩ : hd ++ [OutEvent.anchorNOK link] = evs ∧ false = f ∧ 1 = ec := by
    simpa using hpr
  subst h1'; subst h2'; subst h3'
  refine ⟨rfl, rfl, ?_⟩
  simp [List.count_append, hcnt link]

/-- Claim C3, amended: for an internal cross-page anchor link whose base
URL and redirect-followed final URL are both absent from the index, the
validator DOES attempt recovery — it fetches the final URL with the
rendering backend and checks the fragment directly in the returned markup,
tallying internal-OK/NOK with no issue and no `notInSitemap` change; only
when that fetch itself fails does it record an `internalSitemap404` issue
(printing the leftover crawl URL) and increment `notInSitemap`. -/
theorem C3_amended_direct_fragment_check (env : Env) (cfg : Cfg) (glURL : String)
    (index : List (String × PageRec)) (page : String) (pgrec : PageRec)
    (s s' : ValState) (link : String) (base : List Char) (finalURL : String)
    (h1 : pyStartsWith link "#" = false)
    (h2 : matchPrefixPattern cfg.URLPath.toList link.toList = true)
    (h3 : searchBaseSlashHash [] link.toList = some base)
    (h4 : lookupPage index (String.mk base) = none)
    (h5 : env.probe (String.mk base) = some finalURL)
    (h6 : lookupPage index finalURL = none)
    (h7 : checkAnchorLink env cfg glURL index page pgrec s link = Except.ok s') :
    s'.browserLog = s.browserLog ++ [finalURL]
    ∧ ((env.browserFetch finalURL).isSome →
        s'.notInSitemap = s.notInSitemap ∧ s'.events = s.events
        ∧ s'.okInternal + s'.nokInternal = s.okInternal + s.nokInternal + 1)
    ∧ (env.browserFetch finalURL = none →
        s'.notInSitemap = s.notInSitemap + 1
        ∧ s'.events.count (OutEvent.internalSitemap404 glURL)
            = s.events.count (OutEvent.internalSitemap404 glURL) + 1) := by
  rcases hbf : env.browserFetch finalURL with _ | src
  case none =>
    unfold checkAnchorLink at h7
    simp only [h1, h2, h3, h4, h5, h6, hbf, Bool.false_eq_true, if_false, ite_false,
      if_true, ite_true] at h7
    obtain ⟨t, happ, rfl⟩ := exceptMap_ok h7
    obtain ⟨evs, f, ec, hpr, rfl⟩ := applyPrint_ok happ
    obtain ⟨hd, heq, hcnt⟩ := printNOK_typeSitemap404 cfg.beQuiet (! index.isEmpty)
      pgrec.title link "" glURL s.firstError "" HttpCode.unknown s.exitCode
    rw [heq] at hpr
    obtain ⟨h1', h2', h3'⟩ : hd ++ [OutEvent.internalSitemap404 glURL] = evs
        ∧ false = f ∧ 1 = ec := by simpa using hpr
    subst h1'; subst h2'; subst h3'
    refine ⟨rfl, fun hc => by simp [hbf] at hc, fun _ => ⟨rfl, ?_⟩⟩
    simp [List.count_append, hcnt glURL]
  case some =>
    unfold checkAnchorLink at h7
    simp only [h1, h2, h3, h4, h5, h6, hbf, Bool.false_eq_true, if_false, ite_false,
      if_true, ite_true] at h7
    by_cases hin : hasNameOrId (afterFirstHash link) src = true
    · rw [if_pos hin] at h7
      obtain rfl : _ = s' := by simpa using h7
      refine ⟨rfl, fun _ => ⟨rfl, rfl, by simp; omega⟩, fun hc => by simp [hbf] at hc⟩
    · rw [if_neg hin] at h7
      obtain rfl : _ = s' := by simpa using h7
      refine ⟨rfl, fun _ => ⟨rfl, rfl, by simp; omega⟩, fun hc => by simp [hbf] at hc⟩

/-- Claim C3 amended, witness: the C3 step at the concrete link. -/
theorem C3_amended_witness :
    stepStC3.browserLog = ({} : ValState).browserLog ++ ["https://d/y"]
    ∧ ((envC3.browserFetch "https://d/y").isSome →
        stepStC3.notInSitemap = ({} : ValState).notInSitemap
        ∧ stepStC3.events = ({} : ValState).events
        ∧ stepStC3.okInternal + stepStC3.nokInternal
            = ({} : ValState).okInternal + ({} : ValState).nokInternal + 1)
    ∧ (envC3.browserFetch "https://d/y" = none →
        stepStC3.notInSitemap = ({} : ValState).notInSitemap + 1
        ∧ stepStC3.events.count (OutEvent.internalSitemap404 "g")
            = ({} : ValState).events.count (OutEvent.internalSitemap404 "g") + 1) :=
  C3_amended_direct_fragment_check envC3 cfgD "g" idxC3 "https://d/p" recC3 {} stepStC3
    "https://d/x#frag" ("https://d/x" : String).toList "https://d/y"
    (by decide) (by decide) (by decide) (by decide) (by decide) (by decide) rfl

/-- Claim C4 amended, witness: the C4 step at the concrete link. -/
theorem C4_amended_witness :
    stepStC4.exitCode = 1
    ∧ stepStC4.unreachable = ({} : ValState).unreachable + 1
    ∧ stepStC4.events.count (OutEvent.anchorNOK "https://other.org/z#a")
        = ({} : ValState).events.count (OutEvent.anchorNOK "https://other.org/z#a") + 1 :=
  C4_amended_error_branch envNone cfgD "g" idxC4 "https://d/p" recC4 {} stepStC4
    "https://other.org/z#a" (by decide) (by decide) (by decide) (by decide) rfl

/-- Claim C6, amended: a cache hit with a prior NOK outcome increments the
`unreachable` tally and emits NO issue at all — it neither prints nor
touches the per-page dedup list or the cache (reporting happens only when
a link is first probed, so a broken link is reported at most once per run,
on the page that first probed it; the per-page dedup list is nevertheless
reset at the start of each page, njord.py:471). -/
theorem C6_amended_cache_hit_nok (env : Env) (cfg : Cfg) (index : List (String × PageRec))
    (page : String) (pgrec : PageRec) (s s' : ValState) (link0 : String) (entry : LinkEntry)
    (h1 : normalLinkDenied (absolutizeNormal cfg.domain link0) = false)
    (h2 : lookupCache s.checkedLinks (absolutizeNormal cfg.domain link0) = some entry)
    (h3 : entry.status ≠ "OK")
    (h4 : checkNormalLink env cfg index page pgrec s link0 = Except.ok s') :
    s'.unreachable = s.unreachable + 1
    ∧ s'.events = s.events
    ∧ s'.checkedLinks = s.checkedLinks
    ∧ s'.probeLog = s.probeLog
    ∧ s'.nokLinkMultiCheck = s.nokLinkMultiCheck := by
  unfold checkNormalLink at h4
  simp only [h1, h2, h3, Bool.false_eq_true, if_false, ite_false, if_neg h3] at h4
  obtain rfl : _ = s' := by simpa using h4
  exact ⟨rfl, rfl, rfl, rfl, rfl⟩

/-- Claim C6 amended, witness: a cache-hit NOK step on the second page. -/
theorem C6_amended_witness :
    stepStC6.unreachable = cacheStC6.unreachable + 1
    ∧ stepStC6.events = cacheStC6.events
    ∧ stepStC6.checkedLinks = cacheStC6.checkedLinks
    ∧ stepStC6.probeLog = cacheStC6.probeLog
    ∧ stepStC6.nokLinkMultiCheck = cacheStC6.nokLinkMultiCheck :=
  C6_amended_cache_hit_nok envC6 cfgD idxC6 "https://d/p2" recC6 cacheStC6 stepStC6
    "https://w.org/bad" ⟨"NOK", HttpCode.num 404⟩ (by decide) (by decide) (by decide)
    rfl

/-- Every anchor-link step that completes normally adds exactly one to the
anchor tallies: each link receives exactly one terminal classification. -/
theorem checkAnchorLink_tally (env : Env) (cfg : Cfg) (glURL : String)
    (index : List (String × PageRec)) (page : String) (pgrec : PageRec)
    (s s' : ValState) (link : String)
    (h : checkAnchorLink env cfg glURL index page pgrec s link = Except.ok s') :
    anchorTallySum s' = anchorTallySum s + 1 := by
  unfold checkAnchorLink at h
  repeat' (first | split at h | simp only [] at h)
  all_goals first
    | (simp at h; done)
    | (obtain rfl : _ = s' := by simpa using h
       simp [anchorTallySum]; omega)
    | (obtain ⟨t, happ, rfl⟩ := exceptMap_ok h
       obtain ⟨evs, f, ec, hpr, rfl⟩ := applyPrint_ok happ
       simp [anchorTallySum]; omega)
    | (obtain ⟨evs, f, ec, hpr, rfl⟩ := applyPrint_ok h
       simp [anchorTallySum]; omega)

/-- Invariant propagation along a validation loop. -/
theorem runSeq_induct {α : Type} (f : ValState → α → Except (PyErr × ValState) ValState)
    (P : ValState → Prop)
    (hf : ∀ s a s', f s a = Except.ok s' → P s → P s') :
    ∀ (l : List α) (s s' : ValState), runSeq f s l = Except.ok s' → P s → P s' := by
  intro l
  induction l with
  | nil =>
    intro s s' h hp
    obtain rfl : s = s' := by simpa [runSeq] using h
    exact hp
  | cons a as ih =>
    intro s s' h hp
    unfold runSeq at h
    cases hf1 : f s a with
    | ok t => rw [hf1] at h; exact ih t s' h (hf s a t hf1 hp)
    | error e => rw [hf1] at h; simp at h

/-- A loop whose every completing step adds one to a measure adds the list
length to it. -/
theorem runSeq_add {α : Type} (f : ValState → α → Except (PyErr × ValState) ValState)
    (g : ValState → Nat)
    (hf : ∀ s a s', f s a = Except.ok s' → g s' = g s + 1) :
    ∀ (l : List α) (s s' : ValState), runSeq f s l = Except.ok s' → g s' = g s + l.length := by
  intro l
  induction l with
  | nil =>
    intro s s' h
    obtain rfl : s = s' := by simpa [runSeq] using h
    simp
  | cons a as ih =>
    intro s s' h
    unfold runSeq at h
    cases hf1 : f s a with
    | ok t =>
      rw [hf1] at h
      have := ih t s' h
      have h1 := hf s a t hf1
      simp only [List.length_cons]
      omega
    | error e => rw [hf1] at h; simp at h

/-- Claim C7: when the anchor-link loop of a page completes normally, the
sum of the anchor tallies (in-page, internal and external OK/NOK,
`unreachable`, `notInSitemap`, plus the counted cannot-check outcomes)
grows by exactly the number of anchor links processed — no anchor link is
dropped without a terminal classification. -/
theorem C7_anchor_outcome_partition (env : Env) (cfg : Cfg) (glURL : String)
    (index : List (String × PageRec)) (page : String) (pgrec : PageRec)
    (s s' : ValState)
    (h : runSeq (checkAnchorLink env cfg glURL index page pgrec) s pgrec.anchorLinks
          = Except.ok s') :
    anchorTallySum s' = anchorTallySum s + pgrec.anchorLinks.length :=
  runSeq_add (checkAnchorLink env cfg glURL index page pgrec) anchorTallySum
    (fun s1 a s2 ha => checkAnchorLink_tally env cfg glURL index page pgrec s1 s2 a ha)
    pgrec.anchorLinks s s' h

/-- Claim C7 witness: the three-link C7 page (in-page OK, external OK,
external unreachable). -/
theorem C7_witness :
    anchorTallySum anchorStC7 = anchorTallySum ({} : ValState) + recC7.anchorLinks.length :=
  C7_anchor_outcome_partition envC7 cfgD "g" idxC7 "https://d/p" recC7 {} anchorStC7 rfl

/-- Appending a fresh cache entry: lookups of other keys are unchanged,
the new key finds the new entry. -/
theorem lookupCache_append (cs : List (String × LinkEntry)) (k : String) (v : LinkEntry)
    (key : String) :
    lookupCache (cs ++ [(k, v)]) key =
      match lookupCache cs key with
      | some e => some e
      | none => if k = key then some v else none := by
  induction cs with
  | nil => simp [lookupCache]
  | cons p r ih =>
    obtain ⟨k', v'⟩ := p
    by_cases h : k' = key
    · simp [lookupCache, h]
    · simp [lookupCache, h, ih]

/-- An anchor-link step never touches the cache, the probe log or the
normal-link outcomes. -/
theorem checkAnchorLink_cacheFields (env : Env) (cfg : Cfg) (glURL : String)
    (index : List (String × PageRec)) (page : String) (pgrec : PageRec)
    (s s' : ValState) (link : String)
    (h : checkAnchorLink env cfg glURL index page pgrec s link = Except.ok s') :
    s'.checkedLinks = s.checkedLinks ∧ s'.probeLog = s.probeLog
    ∧ s'.normalOutcomes = s.normalOutcomes := by
  unfold checkAnchorLink at h
  repeat' (first | split at h | simp only [] at h)
  all_goals first
    | (simp at h; done)
    | (obtain rfl : _ = s' := by simpa using h
       exact ⟨rfl, rfl, rfl⟩)
    | (obtain ⟨t, happ, rfl⟩ := exceptMap_ok h
       obtain ⟨evs, f, ec, hpr, rfl⟩ := applyPrint_ok happ
       exact ⟨rfl, rfl, rfl⟩)
    | (obtain ⟨evs, f, ec, hpr, rfl⟩ := applyPrint_ok h
       exact ⟨rfl, rfl, rfl⟩)

/-- `CacheInv` only looks at `probeLog`, `checkedLinks` and
`normalOutcomes`. -/
theorem cacheInv_of_fields (s t : ValState) (hinv : CacheInv s)
    (h1 : t.probeLog = s.probeLog) (h2 : t.checkedLinks = s.checkedLinks)
    (h3 : t.normalOutcomes = s.normalOutcomes) : CacheInv t := by
  unfold CacheInv at hinv ⊢
  rw [h1, h2, h3]
  exact hinv

/-- A cache hit records one more outcome, consistent with the cached
entry. -/
theorem cacheInv_hit (s t : ValState) (page L : String) (b : Bool) (e : LinkEntry)
    (hinv : CacheInv s) (hl : lookupCache s.checkedLinks L = some e)
    (hb : (e.status = "OK") ↔ (b = true))
    (h1 : t.probeLog = s.probeLog) (h2 : t.checkedLinks = s.checkedLinks)
    (h3 : t.normalOutcomes = s.normalOutcomes ++ [(page, L, b)]) : CacheInv t := by
  obtain ⟨hnd, hiff, hout⟩ := hinv
  refine ⟨h1 ▸ hnd, fun L0 => by rw [h1, h2]; exact hiff L0, ?_⟩
  intro p L0 b0 hmem
  rw [h3] at hmem
  rcases List.mem_append.mp hmem with hm | hm
  · obtain ⟨e0, he0, hbe⟩ := hout p L0 b0 hm
    exact ⟨e0, h2 ▸ he0, hbe⟩
  · simp only [List.mem_singleton, Prod.mk.injEq] at hm
    obtain ⟨rfl, rfl, rfl⟩ := hm
    exact ⟨e, h2 ▸ hl, hb⟩

/-- A fresh probe appends the link to the probe log (it was not there
before), writes the cache entry once, and records a consistent outcome. -/
theorem cacheInv_probe (s t : ValState) (page L : String) (b : Bool) (e : LinkEntry)
    (hinv : CacheInv s) (hl : lookupCache s.checkedLinks L = none)
    (hb : (e.status = "OK") ↔ (b = true))
    (h1 : t.probeLog = s.probeLog ++ [L])
    (h2 : t.checkedLinks = s.checkedLinks ++ [(L, e)])
    (h3 : t.normalOutcomes = s.normalOutcomes ++ [(page, L, b)]) : CacheInv t := by
  obtain ⟨hnd, hiff, hout⟩ := hinv
  have hnotin : L ∉ s.probeLog := fun hmem => by
    have := (hiff L).mp hmem
    rw [hl] at this
    simp at this
  refine ⟨?_, ?_, ?_⟩
  · rw [h1]
    simp [List.nodup_append, hnd, hnotin]
  · intro L0
    rw [h1, h2, lookupCache_append]
    cases hc : lookupCache s.checkedLinks L0 with
    | some e0 =>
      have : L0 ∈ s.probeLog := (hiff L0).mpr (by rw [hc]; rfl)
      simp [List.mem_append, this]
    | none =>
      have hnot : L0 ∉ s.probeLog := fun hm => by
        have := (hiff L0).mp hm
        rw [hc] at this
        simp at this
      simp only [List.mem_append, List.mem_singleton]
      constructor
      · rintro (hm | rfl)
        · exact absurd hm hnot
        · simp
      · intro hs
        by_cases hLL : L = L0
        · exact Or.inr hLL.symm
        · rw [if_neg hLL] at hs
          simp at hs
  · intro p L0 b0 hmem
    rw [h3] at hmem
    rcases List.mem_append.mp hmem with hm | hm
    · obtain ⟨e0, he0, hbe⟩ := hout p L0 b0 hm
      refine ⟨e0, ?_, hbe⟩
      rw [h2, lookupCache_append, he0]
    · simp only [List.mem_singleton, Prod.mk.injEq] at hm
      obtain ⟨rfl, rfl, rfl⟩ := hm
      refine ⟨e, ?_, hb⟩
      rw [h2, lookupCache_append, hl]
      simp

/-- A normal-link step preserves the cache invariant: it either skips a
denylisted link, reuses the cached outcome, or probes a not-yet-cached link
exactly once and writes its entry. -/
theorem checkNormalLink_cacheInv (env : Env) (cfg : Cfg) (index : List (String × PageRec))
    (page : String) (pgrec : PageRec) (s s' : ValState) (link0 : String)
    (h : checkNormalLink env cfg index page pgrec s link0 = Except.ok s')
    (hinv : CacheInv s) : CacheInv s' := by
  unfold checkNormalLink at h
  simp only [] at h
  by_cases hden : normalLinkDenied (absolutizeNormal cfg.domain link0) = true
  · simp only [hden, if_true, ite_true] at h
    obtain rfl : s = s' := by simpa using h
    exact hinv
  · rw [Bool.not_eq_true] at hden
    simp only [hden, Bool.false_eq_true, if_false, ite_false] at h
    cases hlook : lookupCache s.checkedLinks (absolutizeNormal cfg.domain link0) with
    | some entry =>
      simp only [hlook] at h
      by_cases hok : entry.status = "OK"
      · rw [if_pos hok] at h
        obtain rfl : _ = s' := by simpa using h
        exact cacheInv_hit s _ page _ true entry hinv hlook (by simp [hok]) rfl rfl rfl
      · rw [if_neg hok] at h
        obtain rfl : _ = s' := by simpa using h
        exact cacheInv_hit s _ page _ false entry hinv hlook (by simp [hok]) rfl rfl rfl
    | none =>
      simp only [hlook] at h
      cases hsg : env.sessionGet (absolutizeNormal cfg.domain link0) with
      | some code =>
        simp only [hsg] at h
        by_cases hlt : code < 400
        · rw [if_pos hlt] at h
          obtain rfl : _ = s' := by simpa using h
          exact cacheInv_probe s _ page _ true ⟨"OK", HttpCode.num code⟩ hinv hlook
            (by simp) rfl rfl rfl
        · rw [if_neg hlt] at h
          split at h
          · obtain rfl : _ = s' := by simpa using h
            exact cacheInv_probe s _ page _ false ⟨"NOK", HttpCode.num code⟩ hinv hlook
              (by simp) rfl rfl rfl
          · obtain ⟨evs, f, ec, hpr, rfl⟩ := applyPrint_ok h
            exact cacheInv_probe s _ page _ false ⟨"NOK", HttpCode.num code⟩ hinv hlook
              (by simp) rfl rfl rfl
      | none =>
        simp only [hsg] at h
        split at h
        · obtain rfl : _ = s' := by simpa using h
          exact cacheInv_probe s _ page _ false ⟨"NOK", HttpCode.unknown⟩ hinv hlook
            (by simp) rfl rfl rfl
        · obtain ⟨evs, f, ec, hpr, rfl⟩ := applyPrint_ok h
          exact cacheInv_probe s _ page _ false ⟨"NOK", HttpCode.unknown⟩ hinv hlook
            (by simp) rfl rfl rfl

/-- A page of the validation loop preserves the cache invariant. -/
theorem runPage_cacheInv (env : Env) (cfg : Cfg) (glURL : String)
    (index : List (String × PageRec)) (s s' : ValState) (pg : String × PageRec)
    (h : runPage env cfg glURL index s pg = Except.ok s') (hinv : CacheInv s) :
    CacheInv s' := by
  unfold runPage at h
  simp only [] at h
  split at h
  · simp at h
  · rename_i s2 h2
    split at h
    · simp at h
    · rename_i s3 h3
      obtain rfl : _ = s' := by simpa using h
      have hinv0 : CacheInv { s with firstError := true, nokLinkMultiCheck := [] } :=
        cacheInv_of_fields s _ hinv rfl rfl rfl
      have hinv2 : CacheInv s2 :=
        runSeq_induct _ CacheInv
          (fun s1 a s1' ha hp =>
            cacheInv_of_fields s1 s1' hp
              (checkAnchorLink_cacheFields env cfg glURL index pg.1 pg.2 s1 s1' a ha).2.1
              (checkAnchorLink_cacheFields env cfg glURL index pg.1 pg.2 s1 s1' a ha).1
              (checkAnchorLink_cacheFields env cfg glURL index pg.1 pg.2 s1 s1' a ha).2.2)
          pg.2.anchorLinks _ s2 h2 hinv0
      have hinv3 : CacheInv s3 :=
        runSeq_induct _ CacheInv
          (fun s1 a s1' ha hp => checkNormalLink_cacheInv env cfg index pg.1 pg.2 s1 s1' a ha hp)
          pg.2.normalLinks s2 s3 h3 hinv2
      exact cacheInv_of_fields s3 _ hinv3 rfl rfl rfl

/-- Claim C5: in any validation run that completes, the status probe of a
normal link runs at most once (the probe log has no duplicates), a link is
cached exactly when it was probed, and every two tallied occurrences of the
same absolute link URL — on whatever pages — carry the same OK/NOK
status. -/
theorem C5_probe_at_most_once (env : Env) (cfg : Cfg) (glURL : String)
    (index : List (String × PageRec)) (s : ValState)
    (h : runValidation env cfg glURL index = Except.ok s) (L : String) :
    s.probeLog.count L ≤ 1
    ∧ (L ∈ s.probeLog ↔ (lookupCache s.checkedLinks L).isSome)
    ∧ (∀ p1 p2 b1 b2, (p1, L, b1) ∈ s.normalOutcomes →
        (p2, L, b2) ∈ s.normalOutcomes → b1 = b2) := by
  have hinit : CacheInv ({} : ValState) := by
    refine ⟨List.nodup_nil, fun L0 => by simp [lookupCache], fun p L0 b0 hm => by simp at hm⟩
  have hinv : CacheInv s :=
    runSeq_induct (runPage env cfg glURL index) CacheInv
      (fun s1 a s2 ha hp => runPage_cacheInv env cfg glURL index s1 s2 a ha hp)
      index {} s h hinit
  obtain ⟨hnd, hiff, hout⟩ := hinv
  refine ⟨List.nodup_iff_count_le_one.mp hnd L, hiff L, ?_⟩
  intro p1 p2 b1 b2 h1 h2
  obtain ⟨e1, he1, hb1⟩ := hout p1 L b1 h1
  obtain ⟨e2, he2, hb2⟩ := hout p2 L b2 h2
  rw [he1] at he2
  injection he2 with he
  subst he
  cases b1 <;> cases b2 <;> simp_all

/-- Claim C5 witness: the link probed once and reused on the second page. -/
theorem C5_witness :
    valStC5.probeLog.count "https://w.org/x" ≤ 1
    ∧ ("https://w.org/x" ∈ valStC5.probeLog
        ↔ (lookupCache valStC5.checkedLinks "https://w.org/x").isSome) :=
  ⟨(C5_probe_at_most_once envC5 cfgD "g" idxC5 valStC5 rfl "https://w.org/x").1,
   (C5_probe_at_most_once envC5 cfgD "g" idxC5 valStC5 rfl "https://w.org/x").2.1⟩

/-- The `(.*?)/?#` search succeeds on any link containing `'#'`. -/
theorem searchBaseSlashHash_isSome (cs : List Char) : '#' ∈ cs →
    ∀ acc, (searchBaseSlashHash acc cs).isSome = true := by
  induction cs with
  | nil => intro h; simp at h
  | cons c rest ih =>
    intro hmem acc
    by_cases hc : c = '#'
    · subst hc
      simp [searchBaseSlashHash]
    · have hmem' : '#' ∈ rest := by
        rcases List.mem_cons.mp hmem with h | h
        · exact absurd h.symm hc
        · exact h
      by_cases hsl : c = '/' ∧ rest.head? = some '#'
      · simp only [searchBaseSlashHash]
        rw [if_neg hc, if_pos hsl]
        rfl
      · by_cases hnl : c = '\n'
        · have hstep : searchBaseSlashHash acc (c :: rest) = searchBaseSlashHash [] rest := by
            simp only [searchBaseSlashHash]
            rw [if_neg hc, if_neg hsl, if_pos hnl]
          rw [hstep]
          exact ih hmem' []
        · have hstep : searchBaseSlashHash acc (c :: rest)
              = searchBaseSlashHash (c :: acc) rest := by
            simp only [searchBaseSlashHash]
            rw [if_neg hc, if_neg hsl, if_neg hnl]
          rw [hstep]
          exact ih hmem' (c :: acc)

/-- In the validation phase (page title available), an anchor-link step can
only raise in the internal branch — through a `'#'`-less link or a raising
redirect probe.  With those excluded it always completes. -/
theorem checkAnchorLink_total (env : Env) (cfg : Cfg) (glURL : String)
    (index : List (String × PageRec)) (page : String) (pgrec : PageRec)
    (s : ValState) (link : String)
    (hprobe : ∀ u, (env.probe u).isSome = true)
    (hhash : matchPrefixPattern cfg.URLPath.toList link.toList = true → '#' ∈ link.toList) :
    ∃ s', checkAnchorLink env cfg glURL index page pgrec s link = Except.ok s' := by
  unfold checkAnchorLink
  dsimp only
  split
  · split
    · exact ⟨_, rfl⟩
    · obtain ⟨hd, heq, -⟩ := printNOK_someTitle_ok cfg.beQuiet (! index.isEmpty) pgrec.title
        link page link s.firstError none "" HttpCode.unknown s.exitCode
      rw [heq]
      exact ⟨_, rfl⟩
  · split
    · rename_i hmatch
      split
      · rename_i hsb
        have hs := searchBaseSlashHash_isSome link.toList (hhash hmatch) []
        rw [hsb] at hs
        simp at hs
      · rename_i baseChars hsb
        split
        · split
          · exact ⟨_, rfl⟩
          · obtain ⟨hd, heq, -⟩ := printNOK_someTitle_ok cfg.beQuiet (! index.isEmpty)
              pgrec.title link page link s.firstError none "" HttpCode.unknown s.exitCode
            rw [heq]
            exact ⟨_, rfl⟩
        · split
          · rename_i hpr
            have hp := hprobe (String.mk baseChars)
            rw [hpr] at hp
            simp at hp
          · rename_i finalURL hpr
            split
            · split
              · exact ⟨_, rfl⟩
              · obtain ⟨hd, heq, -⟩ := printNOK_someTitle_ok cfg.beQuiet (! index.isEmpty)
                  pgrec.title link page link s.firstError none finalURL HttpCode.unknown
                  s.exitCode
                rw [heq]
                exact ⟨_, rfl⟩
            · split
              · rename_i src hbf
                split <;> exact ⟨_, rfl⟩
              · rename_i hbf
                obtain ⟨hd, heq, -⟩ := printNOK_someTitle_ok cfg.beQuiet (! index.isEmpty)
                  pgrec.title link "" glURL s.firstError (some "internalSitemap404") ""
                  HttpCode.unknown s.exitCode
                rw [heq]
                exact ⟨_, rfl⟩
    · split
      · split
        · rename_i src hbf
          split
          · split
            · exact ⟨_, rfl⟩
            · obtain ⟨hd, heq, -⟩ := printNOK_someTitle_ok cfg.beQuiet (! index.isEmpty)
                pgrec.title link page link s.firstError (some "externalNOK") ""
                HttpCode.unknown s.exitCode
              rw [heq]
              exact ⟨_, rfl⟩
          · obtain ⟨hd, heq, -⟩ := printNOK_someTitle_ok cfg.beQuiet (! index.isEmpty)
              pgrec.title link page link s.firstError (some ">399") "" HttpCode.unknown
              s.exitCode
            rw [heq]
            exact ⟨_, rfl⟩
        · rename_i hbf
          obtain ⟨hd, heq, -⟩ := printNOK_someTitle_ok cfg.beQuiet (! index.isEmpty)
            pgrec.title link page link s.firstError (some ">399") "" HttpCode.unknown
            s.exitCode
          rw [heq]
          exact ⟨_, rfl⟩
      · obtain ⟨hd, heq, -⟩ := printNOK_someTitle_ok cfg.beQuiet (! index.isEmpty)
          pgrec.title link page link s.firstError (some "cantGoOutside") "" HttpCode.unknown
          s.exitCode
        rw [heq]
        exact ⟨_, rfl⟩

/-- A normal-link step never raises in the validation phase. -/
theorem checkNormalLink_total (env : Env) (cfg : Cfg) (index : List (String × PageRec))
    (page : String) (pgrec : PageRec) (s : ValState) (link0 : String) :
    ∃ s', checkNormalLink env cfg index page pgrec s link0 = Except.ok s' := by
  unfold checkNormalLink
  dsimp only
  split
  · exact ⟨_, rfl⟩
  · split
    · split <;> exact ⟨_, rfl⟩
    · split
      · split
        · exact ⟨_, rfl⟩
        · split
          · exact ⟨_, rfl⟩
          · rename_i code hcode hlt hmc
            obtain ⟨hd, heq, -⟩ := printNOK_someTitle_ok cfg.beQuiet (! index.isEmpty)
              pgrec.title (absolutizeNormal cfg.domain link0) page
              (absolutizeNormal cfg.domain link0) s.firstError
              (some "normalLinkUnreachable") "" (HttpCode.num code) s.exitCode
            rw [heq]
            exact ⟨_, rfl⟩
      · split
        · exact ⟨_, rfl⟩
        · obtain ⟨hd, heq, -⟩ := printNOK_someTitle_ok cfg.beQuiet (! index.isEmpty)
            pgrec.title (absolutizeNormal cfg.domain link0) page
            (absolutizeNormal cfg.domain link0) s.firstError
            (some "normalLinkUnresolved") "" HttpCode.unknown s.exitCode
          rw [heq]
          exact ⟨_, rfl⟩

/-- A loop over steps that each complete, completes. -/
theorem runSeq_total {α : Type} (f : ValState → α → Except (PyErr × ValState) ValState)
    (l : List α) (hf : ∀ s a, a ∈ l → ∃ s', f s a = Except.ok s') :
    ∀ s, ∃ s', runSeq f s l = Except.ok s' := by
  induction l with
  | nil => intro s; exact ⟨s, rfl⟩
  | cons a as ih =>
    intro s
    obtain ⟨t, ht⟩ := hf s a (List.mem_cons_self a as)
    obtain ⟨s', hs'⟩ := ih (fun s0 a0 h0 => hf s0 a0 (List.mem_cons_of_mem a h0)) t
    refine ⟨s', ?_⟩
    unfold runSeq
    rw [ht]
    exact hs'

/-- A page of the validation loop completes whenever the redirect probe
never raises and its anchor links contain `'#'`. -/
theorem runPage_total (env : Env) (cfg : Cfg) (glURL : String)
    (index : List (String × PageRec)) (s : ValState) (pg : String × PageRec)
    (hprobe : ∀ u, (env.probe u).isSome = true)
    (hhash : ∀ l, l ∈ pg.2.anchorLinks → '#' ∈ l.toList) :
    ∃ s', runPage env cfg glURL index s pg = Except.ok s' := by
  unfold runPage
  simp only []
  obtain ⟨s2, h2⟩ := runSeq_total (checkAnchorLink env cfg glURL index pg.1 pg.2)
    pg.2.anchorLinks
    (fun s0 a ha => checkAnchorLink_total env cfg glURL index pg.1 pg.2 s0 a hprobe
      (fun _ => hhash a ha))
    { s with firstError := true, nokLinkMultiCheck := [] }
  rw [h2]
  dsimp only
  obtain ⟨s3, h3⟩ := runSeq_total (checkNormalLink env cfg index pg.1 pg.2)
    pg.2.normalLinks
    (fun s0 a _ => checkNormalLink_total env cfg index pg.1 pg.2 s0 a) s2
  rw [h3]
  exact ⟨_, rfl⟩

/-- Claim C2, amended: failures of the external-anchor fetch, of the
out-of-scope page fetch, and of the normal-link probe are all caught and
turned into issues, so whenever the internal cross-page redirect request
(`requests.get(linkBaseURL)`, njord.py:510 — the one per-link call outside
any try block) never raises, the validation phase runs to completion and
reaches the statistics summary.  When that request does raise, the run
aborts early through the top-level handler (see the counterexample). -/
theorem C2_amended_validation_completes (env : Env) (cfg : Cfg) (glURL : String)
    (index : List (String × PageRec))
    (hprobe : ∀ u, (env.probe u).isSome = true)
    (hhash : ∀ pr, pr ∈ index → ∀ l, l ∈ pr.2.anchorLinks → '#' ∈ l.toList) :
    ∃ s, runValidation env cfg glURL index = Except.ok s := by
  unfold runValidation
  exact runSeq_total (runPage env cfg glURL index) index
    (fun s pr hpr => runPage_total env cfg glURL index s pr hprobe (hhash pr hpr)) {}

/-- Claim C2 amended, witness: the C2 page in a world whose redirect probe
answers. -/
theorem C2_amended_witness :
    ∃ s, runValidation envProbeOkC2 cfgD "g" [("https://d/p", recC2)] = Except.ok s :=
  C2_amended_validation_completes envProbeOkC2 cfgD "g" [("https://d/p", recC2)]
    (fun _ => rfl)
    (by
      intro pr hpr l hl
      simp only [List.mem_singleton] at hpr
      subst hpr
      simp only [recC2, List.mem_cons, List.mem_singleton, List.not_mem_nil] at hl
      rcases hl with rfl | rfl | h
      · decide
      · decide
      · exact h.elim)

end Njord
